import Mathlib

/-!
Verification of the Wireshark BLF (Vector Binary Log File) reader, `blf.c`.

The development is a shallow embedding of the reader:

* the on-disk file and the decompressed ("virtual") byte stream are `List Nat`
  (one `Nat` per byte);
* 64-bit C arithmetic is `Nat` with an explicit `% 2 ^ 64` where the code can
  wrap;
* fallible reads return `Option` / `Except`;
* the open-time container scan and the object demultiplexer are fueled
  recursions (the C loops advance the file position by at least one byte per
  iteration, so fuel `length + 1` is enough).

Layouts of the block header, the log-container header and the three
log-object header variants are byte-exact.  The declarations of those structs
live in `blf.h`, which is not part of the sources under review; their layouts
are modelled from the spec (sections 3 and 6 give the field lists, widths and
the packed little-endian rule).  Numeric constants from `blf.h` /
`packet-socketcan.h` that the sources use but do not define are likewise
modelled from the spec; none of the verified claims depends on their exact
values, only on their distinctness.
-/

set_option maxRecDepth 10000

namespace Blf

/-- Wiretap error codes set by `blf.c` through `*err`: the `WTAP_ERR_*`
constants plus `ENOMEM` (the code stores the errno `ENOMEM` for
`Z_MEM_ERROR`, which the host reports as an out-of-memory failure). -/
inductive WtapErr where
  | internal
  | badFile
  | unsupported
  | decompress
  | enomem
  | decompressionNotSupported
  | shortRead
  deriving Repr, DecidableEq

/-- Link-layer encapsulations (`WTAP_ENCAP_*`) handed to records. -/
inductive Encap where
  | ethernet
  | ieee80211
  | socketcan
  | flexray
  | lin
  | upperPdu
  deriving Repr, DecidableEq

/-- Modulus of 64-bit C arithmetic. -/
def U64MOD : Nat := 2 ^ 64

/-- Modulus of 32-bit C arithmetic. -/
def U32MOD : Nat := 2 ^ 32

/-- Timestamp resolution flag: 10 microsecond ticks (spec section 3,
`flags` value 1). -/
def BLF_TIMESTAMP_RESOLUTION_10US : Nat := 1

/-- Timestamp resolution flag: 1 nanosecond ticks (spec section 3,
`flags` value 2). -/
def BLF_TIMESTAMP_RESOLUTION_1NS : Nat := 2

/-- Nanoseconds per second, the divisor used by `blf_init_rec`. -/
def NS_PER_S : Nat := 1000 * 1000 * 1000

/-- Total timestamp (in nanoseconds, as the 64-bit value `object_timestamp`
holds after the `switch (flags)` in `blf_init_rec`, lines 986-1010): for the
10 µs resolution flag the raw stamp is multiplied by 10000 and
`start_offset_ns` is added, for the 1 ns flag only `start_offset_ns` is
added, and every other flag value resets the stamp to zero.  Both the
multiplication and the addition are 64-bit and can wrap. -/
def blf_init_rec_total_ns (start_offset_ns flags object_timestamp : Nat) : Nat :=
  if flags = BLF_TIMESTAMP_RESOLUTION_10US then
    (object_timestamp * 10000 % U64MOD + start_offset_ns) % U64MOD
  else if flags = BLF_TIMESTAMP_RESOLUTION_1NS then
    (object_timestamp + start_offset_ns) % U64MOD
  else 0

/-- Seconds stored into `rec->ts.secs` by `blf_init_rec` (line 1011). -/
def blf_init_rec_ts_secs (total_ns : Nat) : Nat := total_ns / NS_PER_S

/-- Nanoseconds stored into `rec->ts.nsecs` by `blf_init_rec` (line 1012). -/
def blf_init_rec_ts_nsecs (total_ns : Nat) : Nat := total_ns % NS_PER_S

/-- Return codes of zlib's `inflate` that the switch in
`blf_pull_logcontainer_into_memory` (lines 629-685) distinguishes. -/
inductive ZlibRet where
  | zStreamEnd
  | zOk
  | zNeedDict
  | zStreamError
  | zMemError
  | zDataError
  | zBufError
  | zVersionError
  | otherCode (code : Int)
  deriving Repr, DecidableEq

/-- Error selected by `blf_pull_logcontainer_into_memory` from the result of
`inflate` (the `switch (ret)` at lines 631-675); `none` when inflation ended
cleanly with `Z_STREAM_END`. -/
def blf_inflate_error (ret : ZlibRet) : Option WtapErr :=
  match ret with
  | .zStreamEnd => none
  | .zNeedDict => some .decompress
  | .zStreamError => some .decompress
  | .zMemError => some .enomem
  | .zDataError => some .decompress
  | .zBufError => some .internal
  | .zVersionError => some .internal
  | .zOk => some .internal
  | .otherCode _ => some .internal

/-- Error reported for a zlib container when decompression support is
compiled out (the `#else` branch at lines 715-719). -/
def blf_no_zlib_error : WtapErr := .decompressionNotSupported

/-- Outcome of inflating a zlib container: with zlib support the error is
chosen by the `inflate` switch, without it the fixed
`WTAP_ERR_DECOMPRESSION_NOT_SUPPORTED` is reported. -/
def blf_pull_inflate_outcome (haveZlib : Bool) (ret : ZlibRet) : Option WtapErr :=
  if haveZlib then blf_inflate_error ret else some blf_no_zlib_error

/-! ### Byte-level primitives -/

/-- Read `n` bytes starting at `pos`; `none` models a short read
(`wtap_read_bytes_or_eof` failing because fewer than `n` bytes remain). -/
def readBytesAt (f : List Nat) (pos n : Nat) : Option (List Nat) :=
  if pos + n ≤ f.length then some ((f.drop pos).take n) else none

/-- Little-endian value of a byte list (each entry reduced to a byte). -/
def leVal (bs : List Nat) : Nat :=
  bs.foldr (fun b acc => b % 256 + 256 * acc) 0

/-- Little-endian encoding of `n` on `w` bytes (the truncation to `w` bytes
models the width of the C field). -/
def leBytes : Nat → Nat → List Nat
  | 0, _ => []
  | w + 1, n => n % 256 :: leBytes w (n / 256)

/-- Magic of a block header, ASCII `LOBJ`. -/
def LOBJ : List Nat := [76, 79, 66, 74]

/-- Magic of the file header, ASCII `LOGG`. -/
def LOGG : List Nat := [76, 79, 71, 71]

/-! ### Block header and log-container header (layouts from spec section 6) -/

/-- Header preceding every object (`blf_blockheader_t`): magic `LOBJ`,
16-bit header length, 16-bit header type, 32-bit object length, 32-bit
object type, all little-endian, 16 bytes overall. -/
structure BlfBlockHeader where
  magic : List Nat
  header_length : Nat
  header_type : Nat
  object_length : Nat
  object_type : Nat
  deriving Repr, DecidableEq

/-- Size of `blf_blockheader_t` in bytes. -/
def blf_blockheader_size : Nat := 16

/-- Decode a block header from its 16 raw bytes (the struct copy followed by
`fix_endianness_blf_blockheader`). -/
def parseBlockHeaderBytes (bs : List Nat) : BlfBlockHeader :=
  { magic := bs.take 4
    header_length := leVal ((bs.drop 4).take 2)
    header_type := leVal ((bs.drop 6).take 2)
    object_length := leVal ((bs.drop 8).take 4)
    object_type := leVal ((bs.drop 12).take 4) }

/-- Read and decode a block header at `pos`. -/
def parseBlockHeader (f : List Nat) (pos : Nat) : Option BlfBlockHeader :=
  (readBytesAt f pos blf_blockheader_size).map parseBlockHeaderBytes

/-- Log-container header (`blf_logcontainerheader_t`):
compression_method(16), reserved(16), reserved(32), uncompressed_size(32),
reserved(32); 16 bytes (spec section 6). -/
structure BlfLogContainerHeader where
  compression_method : Nat
  uncompressed_size : Nat
  deriving Repr, DecidableEq

/-- Size of `blf_logcontainerheader_t` in bytes. -/
def blf_logcontainerheader_size : Nat := 16

/-- Read and decode a log-container header at `pos`. -/
def parseLogContainerHeader (f : List Nat) (pos : Nat) : Option BlfLogContainerHeader :=
  (readBytesAt f pos blf_logcontainerheader_size).map fun bs =>
    { compression_method := leVal (bs.take 2)
      uncompressed_size := leVal ((bs.drop 8).take 4) }

/-- Block-header type required at the top level (spec section 6). -/
def BLF_HEADER_TYPE_DEFAULT : Nat := 1

/-- Block-header type of the v2 log-object header. -/
def BLF_HEADER_TYPE_2 : Nat := 2

/-- Block-header type of the v3 log-object header. -/
def BLF_HEADER_TYPE_3 : Nat := 3

/-- Modelled from the spec: the numeric `BLF_OBJTYPE_*` codes are declared in
`blf.h`, which is absent from the sources under review; the values below are
the ones of the BLF format, and no claim depends on anything but their
distinctness. -/
def BLF_OBJTYPE_LOG_CONTAINER : Nat := 10

/-! ### Container index: `blf_scan_file_for_logcontainers` -/

/-- Container descriptor built by the open-time scan
(`blf_log_container_t`; the `real_*` fields are the virtual-address ones,
`real_data` caching is not part of the scan). -/
structure BlfLogContainer where
  infile_start_pos : Nat
  infile_data_start : Nat
  infile_length : Nat
  real_start_pos : Nat
  real_length : Nat
  compression_method : Nat
  deriving Repr, DecidableEq

/-- One round of `blf_scan_file_for_logcontainers` (lines 874-979), fueled:
read a block header at `pos` (EOF or a trailing short read ends the scan
successfully), resync one byte forward while the magic is not `LOBJ`, fail on
a header type other than 1, and for a `LOG_CONTAINER` object append a
descriptor whose virtual start is the running total `realStart` before
seeking to `pos + max(max(16, object_length), header_length)`.  Any other
top-level object type is skipped with the same seek.  The returned `Bool` is
the C function's return value; the list is the container array built so far
(it stays in `blf_data` even when the scan returns false). -/
def blf_scan_loop (f : List Nat) :
    Nat → Nat → Nat → List BlfLogContainer → Bool × List BlfLogContainer
  | 0, _, _, acc => (false, acc)
  | fuel + 1, pos, realStart, acc =>
    match parseBlockHeader f pos with
    | none => (true, acc)
    | some header =>
      if header.magic ≠ LOBJ then
        blf_scan_loop f fuel (pos + 1) realStart acc
      else if header.header_type ≠ BLF_HEADER_TYPE_DEFAULT then
        (false, acc)
      else if header.object_type = BLF_OBJTYPE_LOG_CONTAINER then
        if header.header_length < blf_blockheader_size then
          (false, acc)
        else
          match parseLogContainerHeader f (pos + header.header_length) with
          | none => (false, acc)
          | some lch =>
            blf_scan_loop f fuel
              (pos + max (max 16 header.object_length) header.header_length)
              (realStart + lch.uncompressed_size)
              (acc ++ [{ infile_start_pos := pos
                         infile_data_start := pos + header.header_length +
                           blf_logcontainerheader_size
                         infile_length := header.object_length
                         real_start_pos := realStart
                         real_length := lch.uncompressed_size
                         compression_method := lch.compression_method }])
      else
        blf_scan_loop f fuel
          (pos + max (max 16 header.object_length) header.header_length)
          realStart acc

/-- The open-time scan, started at `startPos` (the position right after the
file header) with an empty container array and running virtual total 0.  The
fuel `f.length + 1` is enough because every iteration advances the position. -/
def blf_scan_file_for_logcontainers (f : List Nat) (startPos : Nat) :
    Bool × List BlfLogContainer :=
  blf_scan_loop f (f.length + 1) startPos 0 []

/-! ### `blf_open` -/

/-- Result of a wiretap open routine (`wtap_open_return_val`); `openError`
carries the error code stored through `*err` (`none` when no code was set). -/
inductive WtapOpenRet where
  | notMine
  | openError (e : Option WtapErr)
  | mine
  deriving Repr, DecidableEq

/-- File header fields `blf_open` consumes: the magic and the declared
header length (used as seek target for the scan start). -/
structure BlfFileHeader where
  magic : List Nat
  header_length : Nat
  deriving Repr, DecidableEq

/-- Modelled from the spec: `sizeof(blf_fileheader_t)` -- the struct is
declared in `blf.h`, absent from the sources under review.  Per spec
section 3 and the fields fixed by `fix_endianness_blf_fileheader` the packed
struct holds the 4-byte magic, u32 header length, two 4-byte id arrays, u64
compressed and uncompressed totals, two u32 object counts, two 16-byte dates
and a final u32: 76 bytes.  No claim depends on the exact value. -/
def blf_fileheader_size : Nat := 76

/-- Read the file header: magic at offset 0, header length at offset 4. -/
def parseFileHeader (f : List Nat) : Option BlfFileHeader :=
  (readBytesAt f 0 blf_fileheader_size).map fun bs =>
    { magic := bs.take 4
      header_length := leVal ((bs.drop 4).take 4) }

/-- Open routine `blf_open` (lines 2460-2537) as far as the container index
is concerned: a short file or a bad magic is NOT_MINE; otherwise the file
position is moved to the declared header length, the container scan runs,
its result is ignored (line 2525 discards the return value and no error is
propagated), and the open reports MINE together with whatever containers the
scan collected. -/
def blf_open (f : List Nat) : WtapOpenRet × List BlfLogContainer :=
  match parseFileHeader f with
  | none => (.notMine, [])
  | some h =>
    if h.magic ≠ LOGG then (.notMine, [])
    else (.mine, (blf_scan_file_for_logcontainers f h.header_length).2)

/-- Containers collected by the open-time scan. -/
def blf_scan_containers (f : List Nat) (startPos : Nat) : List BlfLogContainer :=
  (blf_scan_file_for_logcontainers f startPos).2

/-! ### Tiling invariant of the container index -/

/-- The virtual ranges of the containers tile the address space starting at
`v`: each descriptor starts where the previous one ended. -/
def containersTileFrom : Nat → List BlfLogContainer → Prop
  | _, [] => True
  | v, c :: rest => c.real_start_pos = v ∧ containersTileFrom (v + c.real_length) rest

/-- The file positions of the containers are at least `p` and strictly
increasing. -/
def fileOrderedFrom : Nat → List BlfLogContainer → Prop
  | _, [] => True
  | p, c :: rest => p ≤ c.infile_start_pos ∧ fileOrderedFrom (c.infile_start_pos + 1) rest

lemma fileOrderedFrom_mono {l : List BlfLogContainer} {p q : Nat} (hpq : p ≤ q)
    (h : fileOrderedFrom q l) : fileOrderedFrom p l := by
  cases l with
  | nil => trivial
  | cons c rest => exact ⟨le_trans hpq h.1, h.2⟩

/-- Main invariant of the scan loop: it only ever appends to the container
array, and the appended descriptors tile the virtual space from the running
total and sit at increasing file positions at or after the current one. -/
lemma blf_scan_loop_spec (f : List Nat) :
    ∀ fuel pos realStart acc,
      ∃ ext, (blf_scan_loop f fuel pos realStart acc).2 = acc ++ ext ∧
        containersTileFrom realStart ext ∧ fileOrderedFrom pos ext := by
  intro fuel
  induction fuel with
  | zero =>
    intro pos realStart acc
    exact ⟨[], by simp [blf_scan_loop], trivial, trivial⟩
  | succ n ih =>
    intro pos realStart acc
    cases hp : parseBlockHeader f pos with
    | none => exact ⟨[], by simp [blf_scan_loop, hp], trivial, trivial⟩
    | some header =>
      by_cases hm : header.magic = LOBJ
      case neg =>
        obtain ⟨ext, h1, h2, h3⟩ := ih (pos + 1) realStart acc
        exact ⟨ext, by simp [blf_scan_loop, hp, hm, h1], h2,
          fileOrderedFrom_mono (Nat.le_succ pos) h3⟩
      case pos =>
        by_cases ht : header.header_type = BLF_HEADER_TYPE_DEFAULT
        case neg =>
          exact ⟨[], by simp [blf_scan_loop, hp, hm, ht], trivial, trivial⟩
        case pos =>
          by_cases ho : header.object_type = BLF_OBJTYPE_LOG_CONTAINER
          case neg =>
            obtain ⟨ext, h1, h2, h3⟩ :=
              ih (pos + max (max 16 header.object_length) header.header_length) realStart acc
            exact ⟨ext, by simp [blf_scan_loop, hp, hm, ht, ho, h1], h2,
              fileOrderedFrom_mono (Nat.le_add_right pos _) h3⟩
          case pos =>
            by_cases hl : header.header_length < blf_blockheader_size
            case pos =>
              exact ⟨[], by simp [blf_scan_loop, hp, hm, ht, ho, hl], trivial, trivial⟩
            case neg =>
              cases hc : parseLogContainerHeader f (pos + header.header_length) with
              | none =>
                exact ⟨[], by simp [blf_scan_loop, hp, hm, ht, ho, hl, hc], trivial, trivial⟩
              | some lch =>
                obtain ⟨ext, h1, h2, h3⟩ :=
                  ih (pos + max (max 16 header.object_length) header.header_length)
                    (realStart + lch.uncompressed_size)
                    (acc ++ [{ infile_start_pos := pos
                               infile_data_start := pos + header.header_length +
                                 blf_logcontainerheader_size
                               infile_length := header.object_length
                               real_start_pos := realStart
                               real_length := lch.uncompressed_size
                               compression_method := lch.compression_method }])
                refine ⟨⟨pos, pos + header.header_length + blf_logcontainerheader_size,
                  header.object_length, realStart, lch.uncompressed_size,
                  lch.compression_method⟩ :: ext, ?_, ⟨rfl, h2⟩, Nat.le_refl pos,
                  fileOrderedFrom_mono ?_ h3⟩
                · simp [blf_scan_loop, hp, hm, ht, ho, hl, hc, h1]
                · have h16 : 1 ≤ max (max 16 header.object_length) header.header_length :=
                    le_trans (by norm_num) (le_trans (le_max_left _ _) (le_max_left _ _))
                  exact Nat.add_le_add_left h16 pos

lemma containersTileFrom_head {v : Nat} {l : List BlfLogContainer}
    (h : containersTileFrom v l) : ∀ c, l.head? = some c → c.real_start_pos = v := by
  cases l with
  | nil => intro c hc; cases hc
  | cons c0 rest =>
    intro c hc
    simp only [List.head?] at hc
    cases hc
    exact h.1

lemma containersTileFrom_get {l : List BlfLogContainer} :
    ∀ {v : Nat}, containersTileFrom v l →
      ∀ i (hi : i + 1 < l.length),
        (l.get ⟨i + 1, hi⟩).real_start_pos
          = (l.get ⟨i, Nat.lt_of_succ_lt hi⟩).real_start_pos
            + (l.get ⟨i, Nat.lt_of_succ_lt hi⟩).real_length := by
  induction l with
  | nil => intro v _ i hi; simp at hi
  | cons c0 rest ihl =>
    intro v h i hi
    cases i with
    | zero =>
      cases rest with
      | nil => simp at hi
      | cons c1 rest2 =>
        have h1 : c0.real_start_pos = v := h.1
        have h2 : c1.real_start_pos = v + c0.real_length := h.2.1
        simp only [List.get]
        rw [h1, h2]
    | succ j =>
      have hj : j + 1 < rest.length := by
        simpa [List.length_cons, Nat.succ_lt_succ_iff] using hi
      exact ihl h.2 j hj

lemma fileOrderedFrom_get {l : List BlfLogContainer} :
    ∀ {p : Nat}, fileOrderedFrom p l →
      ∀ i (hi : i + 1 < l.length),
        (l.get ⟨i, Nat.lt_of_succ_lt hi⟩).infile_start_pos
          < (l.get ⟨i + 1, hi⟩).infile_start_pos := by
  induction l with
  | nil => intro p _ i hi; simp at hi
  | cons c0 rest ihl =>
    intro p h i hi
    cases i with
    | zero =>
      cases rest with
      | nil => simp at hi
      | cons c1 rest2 =>
        have h2 : c0.infile_start_pos + 1 ≤ c1.infile_start_pos := h.2.1
        simpa [List.get] using h2
    | succ j =>
      have hj : j + 1 < rest.length := by
        simpa [List.length_cons, Nat.succ_lt_succ_iff] using hi
      exact ihl h.2 j hj

/-- C1: after the open-time scan the container descriptors tile the virtual
address space: adjacent descriptors satisfy
`Ci.virt_start + Ci.virt_length = Ci+1.virt_start`, the first descriptor has
`virt_start = 0`, and the array is simultaneously in (strict) file order and
in (monotone) virtual order. -/
theorem blf_scan_containers_tile (f : List Nat) (startPos : Nat) :
    containersTileFrom 0 (blf_scan_containers f startPos) ∧
    (∀ c, (blf_scan_containers f startPos).head? = some c → c.real_start_pos = 0) ∧
    (∀ i (hi : i + 1 < (blf_scan_containers f startPos).length),
      ((blf_scan_containers f startPos).get ⟨i + 1, hi⟩).real_start_pos
        = ((blf_scan_containers f startPos).get ⟨i, Nat.lt_of_succ_lt hi⟩).real_start_pos
          + ((blf_scan_containers f startPos).get ⟨i, Nat.lt_of_succ_lt hi⟩).real_length ∧
      ((blf_scan_containers f startPos).get ⟨i, Nat.lt_of_succ_lt hi⟩).infile_start_pos
        < ((blf_scan_containers f startPos).get ⟨i + 1, hi⟩).infile_start_pos ∧
      ((blf_scan_containers f startPos).get ⟨i, Nat.lt_of_succ_lt hi⟩).real_start_pos
        ≤ ((blf_scan_containers f startPos).get ⟨i + 1, hi⟩).real_start_pos) := by
  obtain ⟨ext, h1, h2, h3⟩ := blf_scan_loop_spec f (f.length + 1) startPos 0 []
  have hext : blf_scan_containers f startPos = ext := by
    simpa [blf_scan_containers, blf_scan_file_for_logcontainers] using h1
  rw [hext]
  refine ⟨h2, containersTileFrom_head h2, fun i hi => ?_⟩
  have hadj := containersTileFrom_get h2 i hi
  exact ⟨hadj, fileOrderedFrom_get h3 i hi, by omega⟩

/-- One log-container object (32 bytes): block header with
`header_length = 16`, `header_type = 1`, `object_length = 32`, object type
LOG_CONTAINER, followed by a 16-byte container header with compression 0 and
the given uncompressed size. -/
def sampleContainerObj (uncompressedSize : Nat) : List Nat :=
  LOBJ ++ leBytes 2 16 ++ leBytes 2 1 ++ leBytes 4 32 ++ leBytes 4 BLF_OBJTYPE_LOG_CONTAINER
    ++ leBytes 2 0 ++ leBytes 2 0 ++ leBytes 4 0 ++ leBytes 4 uncompressedSize ++ leBytes 4 0

/-- Two consecutive log containers of 100 and 50 uncompressed bytes. -/
def c1File : List Nat := sampleContainerObj 100 ++ sampleContainerObj 50

theorem blf_scan_containers_tile_witness :
    ((blf_scan_containers c1File 0).get ⟨1, by decide⟩).real_start_pos
      = ((blf_scan_containers c1File 0).get ⟨0, by decide⟩).real_start_pos
        + ((blf_scan_containers c1File 0).get ⟨0, by decide⟩).real_length := by
  exact ((blf_scan_containers_tile c1File 0).2.2 0 (by decide)).1

/-! ### C8: header type other than 1 during the scan -/

/-- File for the C8 analysis: a well-formed 76-byte file header followed by
one `LOBJ` block whose `header_type` is 2. -/
def c8File : List Nat :=
  LOGG ++ leBytes 4 76 ++ List.replicate 68 0
    ++ LOBJ ++ leBytes 2 16 ++ leBytes 2 2 ++ leBytes 4 16
    ++ leBytes 4 BLF_OBJTYPE_LOG_CONTAINER

/-- C8 counterexample: on a file whose first block has `header_type = 2` the
open does not fail with BadFile -- it succeeds with `WTAP_OPEN_MINE` (and an
empty container index), because `blf_scan_file_for_logcontainers` returns
false without storing any error and `blf_open` (line 2525) discards that
return value. -/
theorem blf_open_bad_header_type_counterexample :
    (blf_open c8File).1 = WtapOpenRet.mine ∧
    (blf_open c8File).1 ≠ WtapOpenRet.openError (some WtapErr.badFile) := by
  constructor
  · decide
  · decide

/-- C8 amended: a block whose `header_type` is not 1 makes the open-time
scan stop and report failure (with the containers collected so far and no
error code), and `blf_open` ignores that result: whenever the file header
parses with the `LOGG` magic, the open returns `WTAP_OPEN_MINE`. -/
theorem blf_open_ignores_bad_header_type :
    (∀ f fuel pos realStart acc header,
        parseBlockHeader f pos = some header → header.magic = LOBJ →
        header.header_type ≠ BLF_HEADER_TYPE_DEFAULT →
        blf_scan_loop f (fuel + 1) pos realStart acc = (false, acc)) ∧
    (∀ f h, parseFileHeader f = some h → h.magic = LOGG →
        (blf_open f).1 = WtapOpenRet.mine) := by
  constructor
  · intro f fuel pos realStart acc header hp hm ht
    simp [blf_scan_loop, hp, hm, ht]
  · intro f h hp hm
    simp [blf_open, hp, hm]

/-! ### C4: timestamp conversion in `blf_init_rec` -/

/-- C4 counterexample: for a record whose resolution flag is neither 1
(10 µs) nor 2 (1 ns) -- here flag 0 with `start_offset_ns = 1` and raw
stamp 5 -- the timestamp is reset to zero, so
`ts.secs * 1e9 + ts.nsecs ≥ start_offset_ns` fails. -/
theorem blf_init_rec_ts_counterexample :
    ¬ (blf_init_rec_ts_secs (blf_init_rec_total_ns 1 0 5) * NS_PER_S
        + blf_init_rec_ts_nsecs (blf_init_rec_total_ns 1 0 5) ≥ 1) := by
  decide

/-- C4 amended: for every record built by `blf_init_rec` the stored
nanoseconds are below 1e9 and seconds/nanoseconds decompose the 64-bit total;
for flag 1 the total is `raw * 10000 + start_offset_ns` and for flag 2 it is
`raw + start_offset_ns` (both reduced mod 2^64), any other flag yields total
0; the total is at least `start_offset_ns` for flags 1 and 2 whenever the
64-bit computation does not wrap (for flag 0 and on wrap-around it can fall
below `start_offset_ns`). -/
theorem blf_init_rec_timestamp_props (start_offset_ns flags raw : Nat) :
    blf_init_rec_ts_nsecs (blf_init_rec_total_ns start_offset_ns flags raw) < NS_PER_S ∧
    blf_init_rec_ts_secs (blf_init_rec_total_ns start_offset_ns flags raw) * NS_PER_S
      + blf_init_rec_ts_nsecs (blf_init_rec_total_ns start_offset_ns flags raw)
      = blf_init_rec_total_ns start_offset_ns flags raw ∧
    (flags = BLF_TIMESTAMP_RESOLUTION_10US →
      blf_init_rec_total_ns start_offset_ns flags raw
        = (raw * 10000 + start_offset_ns) % U64MOD) ∧
    (flags = BLF_TIMESTAMP_RESOLUTION_1NS →
      blf_init_rec_total_ns start_offset_ns flags raw
        = (raw + start_offset_ns) % U64MOD) ∧
    (flags ≠ BLF_TIMESTAMP_RESOLUTION_10US → flags ≠ BLF_TIMESTAMP_RESOLUTION_1NS →
      blf_init_rec_total_ns start_offset_ns flags raw = 0) ∧
    (flags = BLF_TIMESTAMP_RESOLUTION_10US → raw * 10000 + start_offset_ns < U64MOD →
      blf_init_rec_total_ns start_offset_ns flags raw ≥ start_offset_ns) ∧
    (flags = BLF_TIMESTAMP_RESOLUTION_1NS → raw + start_offset_ns < U64MOD →
      blf_init_rec_total_ns start_offset_ns flags raw ≥ start_offset_ns) := by
  have hpos : 0 < NS_PER_S := by norm_num [NS_PER_S]
  have h10 : flags = BLF_TIMESTAMP_RESOLUTION_10US →
      blf_init_rec_total_ns start_offset_ns flags raw
        = (raw * 10000 + start_offset_ns) % U64MOD := by
    intro h
    simp only [blf_init_rec_total_ns, h, if_pos rfl]
    exact Nat.mod_add_mod _ _ _
  have h1n : flags = BLF_TIMESTAMP_RESOLUTION_1NS →
      blf_init_rec_total_ns start_offset_ns flags raw
        = (raw + start_offset_ns) % U64MOD := by
    intro h
    simp [blf_init_rec_total_ns, h, BLF_TIMESTAMP_RESOLUTION_1NS,
      BLF_TIMESTAMP_RESOLUTION_10US]
  refine ⟨Nat.mod_lt _ hpos, by rw [Nat.mul_comm]; exact Nat.div_add_mod _ _,
    h10, h1n, ?_, ?_, ?_⟩
  · intro hne1 hne2
    simp only [blf_init_rec_total_ns, if_neg hne1, if_neg hne2]
  · intro h hlt
    rw [h10 h, Nat.mod_eq_of_lt hlt]
    exact Nat.le_add_left _ _
  · intro h hlt
    rw [h1n h, Nat.mod_eq_of_lt hlt]
    exact Nat.le_add_left _ _

theorem blf_init_rec_timestamp_props_witness :
    blf_init_rec_total_ns 7 BLF_TIMESTAMP_RESOLUTION_10US 2 ≥ 7 ∧
    blf_init_rec_ts_nsecs (blf_init_rec_total_ns 7 BLF_TIMESTAMP_RESOLUTION_10US 2)
      < NS_PER_S := by
  have h := blf_init_rec_timestamp_props 7 BLF_TIMESTAMP_RESOLUTION_10US 2
  exact ⟨h.2.2.2.2.2.1 rfl (by norm_num [U64MOD]), h.1⟩

/-! ### C9: error mapping when inflating a container -/

/-- C9 counterexample: a `Z_BUF_ERROR` from `inflate` is reported as
`WTAP_ERR_INTERNAL` (lines 656-661), not as the Decompress error the claim
requires for every non-`Z_MEM_ERROR` inflation failure. -/
theorem blf_inflate_error_counterexample :
    blf_pull_inflate_outcome true ZlibRet.zBufError = some WtapErr.internal ∧
    blf_pull_inflate_outcome true ZlibRet.zBufError ≠ some WtapErr.decompress := by
  exact ⟨rfl, by decide⟩

/-- C9 amended: `Z_NEED_DICT`, `Z_STREAM_ERROR` and `Z_DATA_ERROR` map to
the Decompress error and `Z_MEM_ERROR` to out-of-memory (`ENOMEM`), but
`Z_BUF_ERROR`, `Z_VERSION_ERROR` and every other result that is not
`Z_STREAM_END` map to `WTAP_ERR_INTERNAL`; with decompression support absent
the error is `WTAP_ERR_DECOMPRESSION_NOT_SUPPORTED` (the spec's Unsupported
bucket). -/
theorem blf_inflate_error_mapping (ret : ZlibRet) :
    blf_pull_inflate_outcome false ret = some WtapErr.decompressionNotSupported ∧
    (ret = ZlibRet.zNeedDict ∨ ret = ZlibRet.zStreamError ∨ ret = ZlibRet.zDataError →
      blf_pull_inflate_outcome true ret = some WtapErr.decompress) ∧
    blf_pull_inflate_outcome true ZlibRet.zMemError = some WtapErr.enomem ∧
    (ret ≠ ZlibRet.zStreamEnd → ret ≠ ZlibRet.zNeedDict → ret ≠ ZlibRet.zStreamError →
      ret ≠ ZlibRet.zDataError → ret ≠ ZlibRet.zMemError →
      blf_pull_inflate_outcome true ret = some WtapErr.internal) ∧
    blf_pull_inflate_outcome true ZlibRet.zStreamEnd = none := by
  refine ⟨rfl, ?_, rfl, ?_, rfl⟩
  · rintro (rfl | rfl | rfl) <;> rfl
  · intro h1 h2 h3 h4 h5
    cases ret <;> first
      | rfl
      | exact absurd rfl h1
      | exact absurd rfl h2
      | exact absurd rfl h3
      | exact absurd rfl h4
      | exact absurd rfl h5

theorem blf_inflate_error_mapping_witness :
    blf_pull_inflate_outcome true ZlibRet.zDataError = some WtapErr.decompress ∧
    blf_pull_inflate_outcome false ZlibRet.zDataError
      = some WtapErr.decompressionNotSupported ∧
    blf_pull_inflate_outcome true ZlibRet.zVersionError = some WtapErr.internal := by
  have h := blf_inflate_error_mapping ZlibRet.zDataError
  have h2 := blf_inflate_error_mapping ZlibRet.zVersionError
  exact ⟨h.2.1 (Or.inr (Or.inr rfl)), h.1,
    h2.2.2.2.1 (by decide) (by decide) (by decide) (by decide) (by decide)⟩

theorem blf_open_ignores_bad_header_type_witness :
    blf_scan_loop c8File 92 76 0 [] = (false, []) ∧
    (blf_open c8File).1 = WtapOpenRet.mine := by
  constructor
  · exact blf_open_ignores_bad_header_type.1 c8File 91 76 0 []
      { magic := LOBJ, header_length := 16, header_type := 2,
        object_length := 16, object_type := BLF_OBJTYPE_LOG_CONTAINER }
      (by decide) (by decide) (by decide)
  · exact blf_open_ignores_bad_header_type.2 c8File
      { magic := LOGG, header_length := 76 } (by decide) (by decide)

/-! ### Per-type decoders

The on-disk layouts of the per-type headers are declared in `blf.h`, which
is absent from the sources under review, and the spec does not give their
byte layouts; the decoders below therefore take the already-parsed header
struct (the value after the `fix_endianness_*` call) as input, together with
the virtual stream for the payload reads, and only check availability of the
header bytes where the C code reads them.  All struct sizes and flag values
from `blf.h` are modelled constants; no claim depends on their exact
values. -/

/-- Sentinel `UINT16_MAX`, used to encode "no hardware channel". -/
def UINT16_MAX : Nat := 65535

/-- Modelled from the spec: direction code RX (`blf.h`). -/
def BLF_DIR_RX : Nat := 0

/-- Modelled from the spec: direction code TX (`blf.h`). -/
def BLF_DIR_TX : Nat := 1

/-- Modelled from the spec: direction code TX_REQUEST (`blf.h`). -/
def BLF_DIR_TX_RQ : Nat := 2

/-- EPB-flags option value from `blf_add_direction_option` (lines
1028-1044): 1 for RX (inbound), 2 for TX and TX_REQUEST (outbound), 0
otherwise. -/
def blf_add_direction_option (direction : Nat) : Nat :=
  if direction = BLF_DIR_RX then 1
  else if direction = BLF_DIR_TX || direction = BLF_DIR_TX_RQ then 2
  else 0

/-- Arguments `blf_init_rec` stores into the emitted record (the timestamp
conversion of the `flags`/`object_timestamp` pair is `blf_init_rec_total_ns`
above). -/
structure BlfRec where
  flags : Nat
  object_timestamp : Nat
  pkt_encap : Encap
  channel : Nat
  hwchannel : Nat
  caplen : Nat
  len : Nat
  deriving Repr, DecidableEq

/-- Result of a successful per-type decode: the record, the bytes placed
into the caller's buffer, and the optional per-packet options. -/
structure DecodeOut where
  record : BlfRec
  buf : List Nat
  direction_opt : Option Nat
  pkt_queue_opt : Option Nat
  deriving Repr, DecidableEq

/-- `blf_init_rec` as a record constructor (lines 981-1026). -/
def blf_init_rec (flags object_timestamp : Nat) (pkt_encap : Encap)
    (channel hwchannel caplen len : Nat) : BlfRec :=
  { flags := flags, object_timestamp := object_timestamp, pkt_encap := pkt_encap,
    channel := channel, hwchannel := hwchannel, caplen := caplen, len := len }

/-- Big-endian bytes of a 16-bit value. -/
def beBytes16 (x : Nat) : List Nat := [x / 256 % 256, x % 256]

/-- Big-endian bytes of a 32-bit value. -/
def beBytes32 (x : Nat) : List Nat :=
  [x / 2 ^ 24 % 256, x / 2 ^ 16 % 256, x / 256 % 256, x % 256]

lemma and_ff_eq_mod (x : Nat) : x &&& 0xff = x % 256 := by
  have h : (0xff : Nat) = 2 ^ 8 - 1 := by norm_num
  rw [h, Nat.and_pow_two_sub_one_eq_mod]

lemma and_ff00_shift (x : Nat) : (x &&& 0xff00) >>> 8 = x / 256 % 256 := by
  have key : (x &&& 0xff00) >>> 8 = (x >>> 8) &&& 0xff := by
    apply Nat.eq_of_testBit_eq
    intro k
    simp only [Nat.testBit_shiftRight, Nat.testBit_and]
    by_cases hk : k < 8
    · interval_cases k <;> congr 1
    · have h1 : Nat.testBit 0xff00 (8 + k) = false := by
        apply Nat.testBit_lt_two_pow
        calc (0xff00 : Nat) < 2 ^ 16 := by norm_num
        _ ≤ 2 ^ (8 + k) := Nat.pow_le_pow_right (by norm_num) (by omega)
      have h2 : Nat.testBit 0xff k = false := by
        apply Nat.testBit_lt_two_pow
        calc (0xff : Nat) < 2 ^ 8 := by norm_num
        _ ≤ 2 ^ k := Nat.pow_le_pow_right (by norm_num) (by omega)
      simp [h1, h2]
  rw [key, and_ff_eq_mod, Nat.shiftRight_eq_div_pow]

lemma and_ff0000_shift (x : Nat) : (x &&& 0xff0000) >>> 16 = x / 2 ^ 16 % 256 := by
  have key : (x &&& 0xff0000) >>> 16 = (x >>> 16) &&& 0xff := by
    apply Nat.eq_of_testBit_eq
    intro k
    simp only [Nat.testBit_shiftRight, Nat.testBit_and]
    by_cases hk : k < 8
    · interval_cases k <;> congr 1
    · have h1 : Nat.testBit 0xff0000 (16 + k) = false := by
        apply Nat.testBit_lt_two_pow
        calc (0xff0000 : Nat) < 2 ^ 24 := by norm_num
        _ ≤ 2 ^ (16 + k) := Nat.pow_le_pow_right (by norm_num) (by omega)
      have h2 : Nat.testBit 0xff k = false := by
        apply Nat.testBit_lt_two_pow
        calc (0xff : Nat) < 2 ^ 8 := by norm_num
        _ ≤ 2 ^ k := Nat.pow_le_pow_right (by norm_num) (by omega)
      simp [h1, h2]
  rw [key, and_ff_eq_mod, Nat.shiftRight_eq_div_pow]

lemma and_ff000000_shift (x : Nat) : (x &&& 0xff000000) >>> 24 = x / 2 ^ 24 % 256 := by
  have key : (x &&& 0xff000000) >>> 24 = (x >>> 24) &&& 0xff := by
    apply Nat.eq_of_testBit_eq
    intro k
    simp only [Nat.testBit_shiftRight, Nat.testBit_and]
    by_cases hk : k < 8
    · interval_cases k <;> congr 1
    · have h1 : Nat.testBit 0xff000000 (24 + k) = false := by
        apply Nat.testBit_lt_two_pow
        calc (0xff000000 : Nat) < 2 ^ 32 := by norm_num
        _ ≤ 2 ^ (24 + k) := Nat.pow_le_pow_right (by norm_num) (by omega)
      have h2 : Nat.testBit 0xff k = false := by
        apply Nat.testBit_lt_two_pow
        calc (0xff : Nat) < 2 ^ 8 := by norm_num
        _ ≤ 2 ^ k := Nat.pow_le_pow_right (by norm_num) (by omega)
      simp [h1, h2]
  rw [key, and_ff_eq_mod, Nat.shiftRight_eq_div_pow]

/-! ### ETHERNET_FRAME and ETHERNET_FRAME_EX -/

/-- Fields of `blf_ethernetframeheader_t` after
`fix_endianness_blf_ethernetframeheader`. -/
structure BlfEthernetFrameHeader where
  src_addr : Fin 6 → Nat
  channel : Nat
  dst_addr : Fin 6 → Nat
  direction : Nat
  ethtype : Nat
  tpid : Nat
  tci : Nat
  payloadlength : Nat

/-- Modelled from the spec: `sizeof(blf_ethernetframeheader_t)` (two 6-byte
addresses and six u16 fields, packed). -/
def blf_ethernetframeheader_size : Nat := 24

/-- Decoder for classic ETHERNET_FRAME objects (`blf_read_ethernetframe`,
lines 1097-1166): validate the object is big enough for the header, read the
header, rebuild the canonical frame (6 bytes destination, 6 bytes source,
the 4 VLAN-tag bytes `tpid` then `tci` exactly when both are nonzero, 2
bytes ethtype, all big-endian) and append `payloadlength` bytes read from
the virtual stream at `data_start + sizeof(header)`; no check of
`payloadlength` against the object length is performed. -/
def blf_read_ethernetframe (stream : List Nat) (block_start data_start object_length : Nat)
    (ethheader : BlfEthernetFrameHeader) (flags object_timestamp : Nat) :
    Except WtapErr DecodeOut :=
  if object_length < (data_start - block_start) + blf_ethernetframeheader_size then
    .error .badFile
  else
    match readBytesAt stream data_start blf_ethernetframeheader_size with
    | none => .error .shortRead
    | some _ =>
      let addrbytes : List Nat :=
        [ethheader.dst_addr 0, ethheader.dst_addr 1, ethheader.dst_addr 2,
         ethheader.dst_addr 3, ethheader.dst_addr 4, ethheader.dst_addr 5,
         ethheader.src_addr 0, ethheader.src_addr 1, ethheader.src_addr 2,
         ethheader.src_addr 3, ethheader.src_addr 4, ethheader.src_addr 5]
      let vlan : Bool := ethheader.tpid ≠ 0 && ethheader.tci ≠ 0
      let tmpbuf : List Nat :=
        if vlan then
          addrbytes ++
            [(ethheader.tpid &&& 0xff00) >>> 8, ethheader.tpid &&& 0x00ff,
             (ethheader.tci &&& 0xff00) >>> 8, ethheader.tci &&& 0x00ff,
             (ethheader.ethtype &&& 0xff00) >>> 8, ethheader.ethtype &&& 0x00ff]
        else
          addrbytes ++
            [(ethheader.ethtype &&& 0xff00) >>> 8, ethheader.ethtype &&& 0x00ff]
      let caplen : Nat := (if vlan then 18 else 14) + ethheader.payloadlength
      match readBytesAt stream (data_start + blf_ethernetframeheader_size)
          ethheader.payloadlength with
      | none => .error .shortRead
      | some payload =>
        .ok { record := blf_init_rec flags object_timestamp .ethernet ethheader.channel
                UINT16_MAX caplen caplen
              buf := tmpbuf ++ payload
              direction_opt := some (blf_add_direction_option ethheader.direction)
              pkt_queue_opt := none }

/-- Fields of `blf_ethernetframeheader_ex_t` after
`fix_endianness_blf_ethernetframeheader_ex`. -/
structure BlfEthernetFrameExHeader where
  struct_length : Nat
  flags : Nat
  channel : Nat
  hw_channel : Nat
  frame_duration : Nat
  frame_checksum : Nat
  direction : Nat
  frame_length : Nat
  frame_handle : Nat
  error_field : Nat

/-- Modelled from the spec: `sizeof(blf_ethernetframeheader_ex_t)` (six u16,
one u64, three u32 fields, packed). -/
def blf_ethernetframeheader_ex_size : Nat := 32

/-- Decoder for ETHERNET_FRAME_EX objects (`blf_read_ethernetframe_ext`,
lines 1168-1204): unlike the classic decoder it validates `frame_length`
against the bytes remaining in the object and fails with BadFile when the
frame does not fit. -/
def blf_read_ethernetframe_ext (stream : List Nat)
    (block_start data_start object_length : Nat)
    (ethheader : BlfEthernetFrameExHeader) (flags object_timestamp : Nat) :
    Except WtapErr DecodeOut :=
  if object_length < (data_start - block_start) + blf_ethernetframeheader_ex_size then
    .error .badFile
  else
    match readBytesAt stream data_start blf_ethernetframeheader_ex_size with
    | none => .error .shortRead
    | some _ =>
      if object_length - (data_start - block_start) - blf_ethernetframeheader_ex_size
          < ethheader.frame_length then
        .error .badFile
      else
        match readBytesAt stream (data_start + blf_ethernetframeheader_ex_size)
            ethheader.frame_length with
        | none => .error .shortRead
        | some payload =>
          .ok { record := blf_init_rec flags object_timestamp .ethernet ethheader.channel
                  ethheader.hw_channel ethheader.frame_length ethheader.frame_length
                buf := payload
                direction_opt := some (blf_add_direction_option ethheader.direction)
                pkt_queue_opt := some ethheader.hw_channel }

/-! ### CAN decoders -/

/-- Modelled from the spec: `CAN_RTR_FLAG` of SocketCAN, 0x40000000
(spec scenario S3). -/
def CAN_RTR_FLAG : Nat := 0x40000000

/-- Modelled from the spec: RTR bit in the CAN-header flags (`blf.h`). -/
def BLF_CANMESSAGE_FLAG_RTR : Nat := 0x80

/-- Modelled from the spec: TX bit in the CAN-header flags (`blf.h`). -/
def BLF_CANMESSAGE_FLAG_TX : Nat := 0x01

/-- Modelled from the spec: EDL bit of `canfdflags` (`blf.h`). -/
def BLF_CANFDMESSAGE_CANFDFLAG_EDL : Nat := 0x01

/-- Modelled from the spec: EDL bit of the CAN_FD_MESSAGE_64 flags
(`blf.h`). -/
def BLF_CANFDMESSAGE64_FLAG_EDL : Nat := 0x2000

/-- Modelled from the spec: remote-frame bit of the CAN_FD_MESSAGE_64 flags
(`blf.h`). -/
def BLF_CANFDMESSAGE64_FLAG_REMOTE_FRAME : Nat := 0x0010

/-- Classic-CAN DLC table (line 1246). -/
def can_dlc_to_length : List Nat := [0, 1, 2, 3, 4, 5, 6, 7, 8, 8, 8, 8, 8, 8, 8, 8]

/-- CAN-FD DLC table (line 1247). -/
def canfd_dlc_to_length : List Nat := [0, 1, 2, 3, 4, 5, 6, 7, 8, 12, 16, 20, 24, 32, 48, 64]

/-- Shared CAN buffer/record builder (`blf_can_fill_buf_and_rec`, lines
1249-1278): an 8-byte SocketCAN header (big-endian id, dlc byte, three
zeros) followed by `payload_length_valid` bytes read at `start_position`;
capture length counts the valid bytes, wire length the nominal ones. -/
def blf_can_fill_buf_and_rec (stream : List Nat)
    (canid payload_length payload_length_valid start_position : Nat)
    (flags object_timestamp channel : Nat) : Except WtapErr DecodeOut :=
  let tmpbuf : List Nat :=
    [(canid &&& 0xff000000) >>> 24, (canid &&& 0x00ff0000) >>> 16,
     (canid &&& 0x0000ff00) >>> 8, canid &&& 0x000000ff,
     payload_length, 0, 0, 0]
  let caplen := 8 + payload_length_valid
  let len := 8 + payload_length
  if payload_length_valid > 0 then
    match readBytesAt stream start_position payload_length_valid with
    | none => .error .shortRead
    | some payload =>
      .ok { record := blf_init_rec flags object_timestamp .socketcan channel UINT16_MAX
              caplen len
            buf := tmpbuf ++ payload
            direction_opt := none
            pkt_queue_opt := none }
  else
    .ok { record := blf_init_rec flags object_timestamp .socketcan channel UINT16_MAX
            caplen len
          buf := tmpbuf
          direction_opt := none
          pkt_queue_opt := none }

/-- Fields of `blf_canmessage_t` after `fix_endianness_blf_canmessage`. -/
structure BlfCanMessageHeader where
  channel : Nat
  flags : Nat
  dlc : Nat
  id : Nat

/-- Modelled from the spec: `sizeof(blf_canmessage_t)` (u16 channel, u8
flags, u8 dlc, u32 id; the 8 data bytes follow the struct). -/
def blf_canmessage_size : Nat := 8

/-- Modelled from the spec: `sizeof(blf_canmessage2_trailer_t)`. -/
def blf_canmessage2_trailer_size : Nat := 8

/-- Decoder for CAN_MESSAGE / CAN_MESSAGE2 (`blf_read_canmessage`, lines
1280-1339): mask the dlc to 4 bits, clamp the payload length to 8, OR
`CAN_RTR_FLAG` into the id and zero the payload when the RTR flag is set,
and for CAN_MESSAGE2 additionally require and read the 16-byte tail (8 data
bytes plus trailer) without propagating its fields. -/
def blf_read_canmessage (stream : List Nat) (block_start data_start object_length : Nat)
    (canheader : BlfCanMessageHeader) (flags object_timestamp : Nat)
    (can_message2 : Bool) : Except WtapErr DecodeOut :=
  if object_length < (data_start - block_start) + blf_canmessage_size then
    .error .badFile
  else
    match readBytesAt stream data_start blf_canmessage_size with
    | none => .error .shortRead
    | some _ =>
      let dlc := canheader.dlc &&& 0x0f
      let payload_length0 := if dlc > 8 then 8 else dlc
      let rtr : Bool :=
        canheader.flags &&& BLF_CANMESSAGE_FLAG_RTR = BLF_CANMESSAGE_FLAG_RTR
      let canid := if rtr then canheader.id ||| CAN_RTR_FLAG else canheader.id
      let payload_length := if rtr then 0 else payload_length0
      match blf_can_fill_buf_and_rec stream canid payload_length payload_length
          (data_start + blf_canmessage_size) flags object_timestamp canheader.channel with
      | .error e => .error e
      | .ok out =>
        let withDir : DecodeOut :=
          { out with direction_opt := some (blf_add_direction_option
              (if canheader.flags &&& BLF_CANMESSAGE_FLAG_TX = BLF_CANMESSAGE_FLAG_TX
               then BLF_DIR_TX else BLF_DIR_RX)) }
        if can_message2 then
          if object_length < (data_start - block_start) + blf_canmessage_size + 8
              + blf_canmessage2_trailer_size then
            .error .badFile
          else
            match readBytesAt stream (data_start + blf_canmessage_size + 8)
                blf_canmessage2_trailer_size with
            | none => .error .shortRead
            | some _ => .ok withDir
        else .ok withDir

/-- Fields of `blf_canfdmessage_t` after `fix_endianness_blf_canfdmessage`. -/
structure BlfCanFdMessageHeader where
  channel : Nat
  flags : Nat
  dlc : Nat
  id : Nat
  frameLength_in_ns : Nat
  arbitration_bit_count : Nat
  canfdflags : Nat
  validDataBytes : Nat

/-- Modelled from the spec: `sizeof(blf_canfdmessage_t)`. -/
def blf_canfdmessage_size : Nat := 20

/-- Nominal CAN-FD payload length after the DLC table and the
`validDataBytes` clamp (lines 1366-1378). -/
def blf_canfd_payload_length (canfd : Bool) (dlc validDataBytes : Nat) : Nat :=
  let fromTable := if canfd then canfd_dlc_to_length.getD dlc 0
                   else can_dlc_to_length.getD dlc 0
  if fromTable > validDataBytes then validDataBytes else fromTable

/-- Captured-length clamp of `blf_read_canfdmessage` (lines 1389-1392): note
the comparison bound is the remaining object bytes PLUS
`sizeof(blf_canfdmessage_t)` (the `+` the spec flags as a likely typo), while
the clamped value is the remaining object bytes including the type header;
the `(guint8)` cast reduces mod 256. -/
def blf_canfdmessage_payload_length_valid (object_length gap payload_length : Nat) : Nat :=
  if payload_length > object_length - gap + blf_canfdmessage_size then
    (object_length - gap) % 256
  else payload_length

/-- Decoder for CAN_FD_MESSAGE (`blf_read_canfdmessage`, lines
1341-1401). -/
def blf_read_canfdmessage (stream : List Nat) (block_start data_start object_length : Nat)
    (canheader : BlfCanFdMessageHeader) (flags object_timestamp : Nat) :
    Except WtapErr DecodeOut :=
  if object_length < (data_start - block_start) + blf_canfdmessage_size then
    .error .badFile
  else
    match readBytesAt stream data_start blf_canfdmessage_size with
    | none => .error .shortRead
    | some _ =>
      let dlc := canheader.dlc &&& 0x0f
      let canfd : Bool :=
        canheader.canfdflags &&& BLF_CANFDMESSAGE_CANFDFLAG_EDL
          = BLF_CANFDMESSAGE_CANFDFLAG_EDL
      let payload_length0 := blf_canfd_payload_length canfd dlc canheader.validDataBytes
      let rtr : Bool :=
        !canfd && (canheader.flags &&& BLF_CANMESSAGE_FLAG_RTR = BLF_CANMESSAGE_FLAG_RTR)
      let canid := if rtr then canheader.id ||| CAN_RTR_FLAG else canheader.id
      let payload_length := if rtr then 0 else payload_length0
      let payload_length_valid := blf_canfdmessage_payload_length_valid object_length
        (data_start - block_start) payload_length
      match blf_can_fill_buf_and_rec stream canid payload_length payload_length_valid
          (data_start + blf_canfdmessage_size) flags object_timestamp canheader.channel with
      | .error e => .error e
      | .ok out =>
        .ok { out with direction_opt := some (blf_add_direction_option
            (if canheader.flags &&& BLF_CANMESSAGE_FLAG_TX = BLF_CANMESSAGE_FLAG_TX
             then BLF_DIR_TX else BLF_DIR_RX)) }

/-- Fields of `blf_canfdmessage64_t` after
`fix_endianness_blf_canfdmessage64`. -/
structure BlfCanFdMessage64Header where
  channel : Nat
  dlc : Nat
  validDataBytes : Nat
  id : Nat
  flags : Nat
  dir : Nat

/-- Modelled from the spec: `sizeof(blf_canfdmessage64_t)`. -/
def blf_canfdmessage64_size : Nat := 40

/-- Captured-length clamp of `blf_read_canfdmessage64` (lines 1451-1454):
here the bound is the remaining object bytes with no extra term. -/
def blf_canfdmessage64_payload_length_valid (object_length gap payload_length : Nat) : Nat :=
  if payload_length > object_length - gap then (object_length - gap) % 256
  else payload_length

/-- Decoder for CAN_FD_MESSAGE_64 (`blf_read_canfdmessage64`, lines
1403-1463). -/
def blf_read_canfdmessage64 (stream : List Nat)
    (block_start data_start object_length : Nat)
    (canheader : BlfCanFdMessage64Header) (flags object_timestamp : Nat) :
    Except WtapErr DecodeOut :=
  if object_length < (data_start - block_start) + blf_canfdmessage64_size then
    .error .badFile
  else
    match readBytesAt stream data_start blf_canfdmessage64_size with
    | none => .error .shortRead
    | some _ =>
      let dlc := canheader.dlc &&& 0x0f
      let canfd : Bool :=
        canheader.flags &&& BLF_CANFDMESSAGE64_FLAG_EDL = BLF_CANFDMESSAGE64_FLAG_EDL
      let payload_length0 := blf_canfd_payload_length canfd dlc canheader.validDataBytes
      let rtr : Bool :=
        !canfd && (canheader.flags &&& BLF_CANFDMESSAGE64_FLAG_REMOTE_FRAME
          = BLF_CANFDMESSAGE64_FLAG_REMOTE_FRAME)
      let canid := if rtr then canheader.id ||| CAN_RTR_FLAG else canheader.id
      let payload_length := if rtr then 0 else payload_length0
      let payload_length_valid := blf_canfdmessage64_payload_length_valid object_length
        (data_start - block_start) payload_length
      match blf_can_fill_buf_and_rec stream canid payload_length payload_length_valid
          (data_start + blf_canfdmessage64_size) flags object_timestamp
          canheader.channel with
      | .error e => .error e
      | .ok out =>
        .ok { out with direction_opt := some (blf_add_direction_option canheader.dir) }

/-! ### C5 / C10: behavior of the Ethernet decoders -/

lemma readBytesAt_some {stream : List Nat} {pos n : Nat} (h : pos + n ≤ stream.length) :
    readBytesAt stream pos n = some ((stream.drop pos).take n) := by
  unfold readBytesAt
  rw [if_pos h]

lemma readBytesAt_none {stream : List Nat} {pos n : Nat} (h : stream.length < pos + n) :
    readBytesAt stream pos n = none := by
  unfold readBytesAt
  rw [if_neg (by omega)]

/-- Complete characterization of a successful classic ETHERNET_FRAME decode:
only the object-big-enough precondition and availability of the header and
payload bytes in the virtual stream are needed; `payloadlength` is never
compared against `object_length`. -/
lemma blf_read_ethernetframe_run (stream : List Nat)
    (block_start data_start object_length : Nat) (eth : BlfEthernetFrameHeader)
    (flags ts : Nat)
    (hpre : (data_start - block_start) + blf_ethernetframeheader_size ≤ object_length)
    (hpl : data_start + blf_ethernetframeheader_size + eth.payloadlength ≤ stream.length) :
    blf_read_ethernetframe stream block_start data_start object_length eth flags ts
      = .ok { record := blf_init_rec flags ts .ethernet eth.channel UINT16_MAX
                ((if eth.tpid ≠ 0 ∧ eth.tci ≠ 0 then 18 else 14) + eth.payloadlength)
                ((if eth.tpid ≠ 0 ∧ eth.tci ≠ 0 then 18 else 14) + eth.payloadlength)
              buf := [eth.dst_addr 0, eth.dst_addr 1, eth.dst_addr 2, eth.dst_addr 3,
                      eth.dst_addr 4, eth.dst_addr 5, eth.src_addr 0, eth.src_addr 1,
                      eth.src_addr 2, eth.src_addr 3, eth.src_addr 4, eth.src_addr 5]
                ++ (if eth.tpid ≠ 0 ∧ eth.tci ≠ 0 then
                      beBytes16 eth.tpid ++ beBytes16 eth.tci else [])
                ++ beBytes16 eth.ethtype
                ++ (stream.drop (data_start + blf_ethernetframeheader_size)).take
                     eth.payloadlength
              direction_opt := some (blf_add_direction_option eth.direction)
              pkt_queue_opt := none } := by
  have hhdr : readBytesAt stream data_start blf_ethernetframeheader_size
      = some ((stream.drop data_start).take blf_ethernetframeheader_size) :=
    readBytesAt_some (by omega)
  have hpay : readBytesAt stream (data_start + blf_ethernetframeheader_size)
        eth.payloadlength
      = some ((stream.drop (data_start + blf_ethernetframeheader_size)).take
          eth.payloadlength) :=
    readBytesAt_some (by omega)
  by_cases hv : eth.tpid ≠ 0 ∧ eth.tci ≠ 0
  · have hvb : (decide ¬eth.tpid = 0 && decide ¬eth.tci = 0) = true := by
      simp [hv.1, hv.2]
    simp only [blf_read_ethernetframe, hhdr, hpay, if_neg (by omega : ¬ object_length
      < (data_start - block_start) + blf_ethernetframeheader_size), hvb, if_pos hv,
      if_true, beBytes16]
    rw [and_ff00_shift, and_ff_eq_mod, and_ff00_shift, and_ff_eq_mod,
      and_ff00_shift, and_ff_eq_mod]
    simp
  · have hvb : (decide ¬eth.tpid = 0 && decide ¬eth.tci = 0) = false := by
      rcases Decidable.not_and_iff_or_not.mp hv with h | h <;> simp [h]
    simp only [blf_read_ethernetframe, hhdr, hpay, if_neg (by omega : ¬ object_length
      < (data_start - block_start) + blf_ethernetframeheader_size), hvb, if_neg hv,
      if_false, beBytes16]
    simp
    exact ⟨and_ff00_shift _, and_ff_eq_mod _⟩

/-- C5: the ETHERNET_FRAME decoder reconstructs a canonical frame: 6 bytes
destination address, 6 bytes source address, then -- exactly when `tpid ≠ 0`
and `tci ≠ 0` -- the 4 bytes `tpid` followed by `tci` (big-endian), then 2
bytes ethtype (big-endian), then `payload_length` payload bytes read from the
virtual stream at `data_start + sizeof(header)`; capture and wire length are
both `18 + payload_length` with the VLAN tag and `14 + payload_length`
without it. -/
theorem blf_read_ethernetframe_canonical (stream : List Nat)
    (block_start data_start object_length : Nat) (eth : BlfEthernetFrameHeader)
    (flags ts : Nat)
    (hpre : (data_start - block_start) + blf_ethernetframeheader_size ≤ object_length)
    (hpl : data_start + blf_ethernetframeheader_size + eth.payloadlength ≤ stream.length) :
    blf_read_ethernetframe stream block_start data_start object_length eth flags ts
      = .ok { record := blf_init_rec flags ts .ethernet eth.channel UINT16_MAX
                ((if eth.tpid ≠ 0 ∧ eth.tci ≠ 0 then 18 else 14) + eth.payloadlength)
                ((if eth.tpid ≠ 0 ∧ eth.tci ≠ 0 then 18 else 14) + eth.payloadlength)
              buf := [eth.dst_addr 0, eth.dst_addr 1, eth.dst_addr 2, eth.dst_addr 3,
                      eth.dst_addr 4, eth.dst_addr 5, eth.src_addr 0, eth.src_addr 1,
                      eth.src_addr 2, eth.src_addr 3, eth.src_addr 4, eth.src_addr 5]
                ++ (if eth.tpid ≠ 0 ∧ eth.tci ≠ 0 then
                      beBytes16 eth.tpid ++ beBytes16 eth.tci else [])
                ++ beBytes16 eth.ethtype
                ++ (stream.drop (data_start + blf_ethernetframeheader_size)).take
                     eth.payloadlength
              direction_opt := some (blf_add_direction_option eth.direction)
              pkt_queue_opt := none } :=
  blf_read_ethernetframe_run stream block_start data_start object_length eth flags ts
    hpre hpl

/-- Scenario S2 of the spec: VLAN Ethernet frame bytes. -/
def s2Header : BlfEthernetFrameHeader :=
  { src_addr := ![0x66, 0x77, 0x88, 0x99, 0xAA, 0xBB]
    channel := 1
    dst_addr := ![0x00, 0x11, 0x22, 0x33, 0x44, 0x55]
    direction := 0
    ethtype := 0x0800
    tpid := 0x8100
    tci := 0x0064
    payloadlength := 4 }

/-- Virtual stream for the S2 witness: a 32-byte header region, the 24
header bytes (opaque to the decoder model) and the 4 payload bytes. -/
def s2Stream : List Nat := List.replicate 56 0 ++ [0xDE, 0xAD, 0xBE, 0xEF]

theorem blf_read_ethernetframe_canonical_witness :
    blf_read_ethernetframe s2Stream 0 32 60 s2Header 2 0
      = .ok { record := blf_init_rec 2 0 .ethernet 1 UINT16_MAX 22 22
              buf := [0x00, 0x11, 0x22, 0x33, 0x44, 0x55, 0x66, 0x77, 0x88, 0x99, 0xAA,
                      0xBB, 0x81, 0x00, 0x00, 0x64, 0x08, 0x00, 0xDE, 0xAD, 0xBE, 0xEF]
              direction_opt := some 1
              pkt_queue_opt := none } := by
  have h := blf_read_ethernetframe_canonical s2Stream 0 32 60 s2Header 2 0
    (by norm_num [blf_ethernetframeheader_size])
    (by norm_num [blf_ethernetframeheader_size, s2Stream, s2Header])
  rw [h]
  rfl

/-- C10: unlike ETHERNET_FRAME_EX, the classic ETHERNET_FRAME decoder never
validates `payload_length` against the object's remaining bytes: (i) when
the declared payload exceeds the bytes left in the object it still succeeds,
reading `payload_length` bytes from the virtual stream at
`data_start + sizeof(header)` -- bytes belonging to subsequent objects;
(ii) when the stream ends before those bytes the read fails with ShortRead,
not BadFile; (iii) the EX decoder in the same situation fails with
BadFile. -/
theorem blf_read_ethernetframe_no_payload_validation :
    (∀ stream block_start data_start object_length
        (eth : BlfEthernetFrameHeader) flags ts,
      (data_start - block_start) + blf_ethernetframeheader_size ≤ object_length →
      data_start + blf_ethernetframeheader_size + eth.payloadlength ≤ stream.length →
      object_length - (data_start - block_start) - blf_ethernetframeheader_size
        < eth.payloadlength →
      blf_read_ethernetframe stream block_start data_start object_length eth flags ts
        = .ok { record := blf_init_rec flags ts .ethernet eth.channel UINT16_MAX
                  ((if eth.tpid ≠ 0 ∧ eth.tci ≠ 0 then 18 else 14) + eth.payloadlength)
                  ((if eth.tpid ≠ 0 ∧ eth.tci ≠ 0 then 18 else 14) + eth.payloadlength)
                buf := [eth.dst_addr 0, eth.dst_addr 1, eth.dst_addr 2, eth.dst_addr 3,
                        eth.dst_addr 4, eth.dst_addr 5, eth.src_addr 0, eth.src_addr 1,
                        eth.src_addr 2, eth.src_addr 3, eth.src_addr 4, eth.src_addr 5]
                  ++ (if eth.tpid ≠ 0 ∧ eth.tci ≠ 0 then
                        beBytes16 eth.tpid ++ beBytes16 eth.tci else [])
                  ++ beBytes16 eth.ethtype
                  ++ (stream.drop (data_start + blf_ethernetframeheader_size)).take
                       eth.payloadlength
                direction_opt := some (blf_add_direction_option eth.direction)
                pkt_queue_opt := none }) ∧
    (∀ stream block_start data_start object_length
        (eth : BlfEthernetFrameHeader) flags ts,
      (data_start - block_start) + blf_ethernetframeheader_size ≤ object_length →
      data_start + blf_ethernetframeheader_size ≤ stream.length →
      stream.length < data_start + blf_ethernetframeheader_size + eth.payloadlength →
      blf_read_ethernetframe stream block_start data_start object_length eth flags ts
        = .error .shortRead) ∧
    (∀ stream block_start data_start object_length
        (eth : BlfEthernetFrameExHeader) flags ts,
      (data_start - block_start) + blf_ethernetframeheader_ex_size ≤ object_length →
      data_start + blf_ethernetframeheader_ex_size ≤ stream.length →
      object_length - (data_start - block_start) - blf_ethernetframeheader_ex_size
        < eth.frame_length →
      blf_read_ethernetframe_ext stream block_start data_start object_length eth flags ts
        = .error .badFile) := by
  refine ⟨?_, ?_, ?_⟩
  · intro stream block_start data_start object_length eth flags ts hpre hpl _
    exact blf_read_ethernetframe_run stream block_start data_start object_length
      eth flags ts hpre hpl
  · intro stream block_start data_start object_length eth flags ts hpre hav hshort
    have hhdr : readBytesAt stream data_start blf_ethernetframeheader_size
        = some ((stream.drop data_start).take blf_ethernetframeheader_size) :=
      readBytesAt_some (by omega)
    have hpay : readBytesAt stream (data_start + blf_ethernetframeheader_size)
        eth.payloadlength = none := readBytesAt_none (by omega)
    simp only [blf_read_ethernetframe, hhdr, hpay,
      if_neg (by omega : ¬ object_length
        < (data_start - block_start) + blf_ethernetframeheader_size)]
  · intro stream block_start data_start object_length eth flags ts hpre hav hover
    have hhdr : readBytesAt stream data_start blf_ethernetframeheader_ex_size
        = some ((stream.drop data_start).take blf_ethernetframeheader_ex_size) :=
      readBytesAt_some (by omega)
    simp only [blf_read_ethernetframe_ext, hhdr,
      if_neg (by omega : ¬ object_length
        < (data_start - block_start) + blf_ethernetframeheader_ex_size),
      if_pos (by omega : object_length - (data_start - block_start)
        - blf_ethernetframeheader_ex_size < eth.frame_length)]

/-- Over-long classic Ethernet header for the C10 witness: the object has no
room for any payload, yet 10 bytes are declared. -/
def c10Header : BlfEthernetFrameHeader :=
  { src_addr := ![6, 7, 8, 9, 10, 11]
    channel := 2
    dst_addr := ![0, 1, 2, 3, 4, 5]
    direction := 1
    ethtype := 0x0800
    tpid := 0
    tci := 0
    payloadlength := 10 }

/-- EX header for the C10 witness with the same over-long frame length. -/
def c10ExHeader : BlfEthernetFrameExHeader :=
  { struct_length := 26, flags := 0, channel := 2, hw_channel := 3,
    frame_duration := 0, frame_checksum := 0, direction := 1, frame_length := 10,
    frame_handle := 0, error_field := 0 }

theorem blf_read_ethernetframe_no_payload_validation_witness :
    blf_read_ethernetframe (List.replicate 66 9) 0 32 56 c10Header 2 0
      = .ok { record := blf_init_rec 2 0 .ethernet 2 UINT16_MAX 24 24
              buf := [0, 1, 2, 3, 4, 5, 6, 7, 8, 9, 10, 11, 8, 0]
                ++ List.replicate 10 9
              direction_opt := some 2
              pkt_queue_opt := none } ∧
    blf_read_ethernetframe (List.replicate 60 9) 0 32 56 c10Header 2 0
      = .error .shortRead ∧
    blf_read_ethernetframe_ext (List.replicate 66 9) 0 32 64 c10ExHeader 2 0
      = .error .badFile := by
  obtain ⟨h1, h2, h3⟩ := blf_read_ethernetframe_no_payload_validation
  refine ⟨?_, ?_, ?_⟩
  · have h := h1 (List.replicate 66 9) 0 32 56 c10Header 2 0
      (by norm_num [blf_ethernetframeheader_size])
      (by norm_num [blf_ethernetframeheader_size, c10Header])
      (by norm_num [blf_ethernetframeheader_size, c10Header])
    rw [h]
    rfl
  · exact h2 (List.replicate 60 9) 0 32 56 c10Header 2 0
      (by norm_num [blf_ethernetframeheader_size])
      (by norm_num [blf_ethernetframeheader_size])
      (by norm_num [blf_ethernetframeheader_size, c10Header])
  · exact h3 (List.replicate 66 9) 0 32 64 c10ExHeader 2 0
      (by norm_num [blf_ethernetframeheader_ex_size])
      (by norm_num [blf_ethernetframeheader_ex_size])
      (by norm_num [blf_ethernetframeheader_ex_size, c10ExHeader])

/-! ### C7: RTR handling in CAN_MESSAGE / CAN_MESSAGE2 -/

lemma blf_can_fill_buf_and_rec_run (stream : List Nat)
    (canid PL PLv startp flags ts channel : Nat)
    (hav : startp + PLv ≤ stream.length) :
    blf_can_fill_buf_and_rec stream canid PL PLv startp flags ts channel
      = .ok { record := blf_init_rec flags ts .socketcan channel UINT16_MAX
                (8 + PLv) (8 + PL)
              buf := beBytes32 canid ++ [PL, 0, 0, 0] ++ (stream.drop startp).take PLv
              direction_opt := none
              pkt_queue_opt := none } := by
  by_cases h0 : PLv > 0
  · simp only [blf_can_fill_buf_and_rec, if_pos h0, readBytesAt_some hav]
    simp [beBytes32, and_ff_eq_mod, and_ff00_shift, and_ff0000_shift, and_ff000000_shift]
  · have h00 : PLv = 0 := by omega
    subst h00
    simp only [blf_can_fill_buf_and_rec, if_neg h0]
    simp [beBytes32, and_ff_eq_mod, and_ff00_shift, and_ff0000_shift, and_ff000000_shift]

/-- C7: for every CAN_MESSAGE / CAN_MESSAGE2 object, when the RTR bit is set
in the CAN-header flags the emitted id is the header id OR-ed with
`CAN_RTR_FLAG` and the payload length is zero, and when it is not set the
payload length is the 4-bit masked dlc clamped to at most 8; the SocketCAN
header bytes and capture/wire lengths follow. -/
theorem blf_read_canmessage_rtr_behavior (stream : List Nat)
    (block_start data_start object_length : Nat) (can : BlfCanMessageHeader)
    (flags ts : Nat) (can_message2 : Bool)
    (hpre : (data_start - block_start) + blf_canmessage_size + 8
      + blf_canmessage2_trailer_size ≤ object_length)
    (hav : data_start + blf_canmessage_size + 8 + blf_canmessage2_trailer_size
      ≤ stream.length) :
    blf_read_canmessage stream block_start data_start object_length can flags ts
        can_message2
      = .ok { record := blf_init_rec flags ts .socketcan can.channel UINT16_MAX
                (8 + (if can.flags &&& BLF_CANMESSAGE_FLAG_RTR = BLF_CANMESSAGE_FLAG_RTR
                      then 0 else min (can.dlc &&& 0x0f) 8))
                (8 + (if can.flags &&& BLF_CANMESSAGE_FLAG_RTR = BLF_CANMESSAGE_FLAG_RTR
                      then 0 else min (can.dlc &&& 0x0f) 8))
              buf := beBytes32
                  (if can.flags &&& BLF_CANMESSAGE_FLAG_RTR = BLF_CANMESSAGE_FLAG_RTR
                   then can.id ||| CAN_RTR_FLAG else can.id)
                ++ [(if can.flags &&& BLF_CANMESSAGE_FLAG_RTR = BLF_CANMESSAGE_FLAG_RTR
                     then 0 else min (can.dlc &&& 0x0f) 8), 0, 0, 0]
                ++ (stream.drop (data_start + blf_canmessage_size)).take
                     (if can.flags &&& BLF_CANMESSAGE_FLAG_RTR = BLF_CANMESSAGE_FLAG_RTR
                      then 0 else min (can.dlc &&& 0x0f) 8)
              direction_opt := some (blf_add_direction_option
                (if can.flags &&& BLF_CANMESSAGE_FLAG_TX = BLF_CANMESSAGE_FLAG_TX
                 then BLF_DIR_TX else BLF_DIR_RX))
              pkt_queue_opt := none } := by
  have hhdr : readBytesAt stream data_start blf_canmessage_size
      = some ((stream.drop data_start).take blf_canmessage_size) :=
    readBytesAt_some (by simp only [blf_canmessage_size,
      blf_canmessage2_trailer_size] at hav ⊢; omega)
  have htrl : readBytesAt stream (data_start + blf_canmessage_size + 8)
      blf_canmessage2_trailer_size
      = some ((stream.drop (data_start + blf_canmessage_size + 8)).take
          blf_canmessage2_trailer_size) :=
    readBytesAt_some (by omega)
  have hminPL : ∀ d : Nat, (if d &&& 0x0f > 8 then 8 else d &&& 0x0f)
      = min (d &&& 0x0f) 8 := by
    intro d
    rcases Nat.lt_or_ge 8 (d &&& 0x0f) with h | h
    · rw [if_pos h, Nat.min_eq_right (by omega)]
    · rw [if_neg (by omega), Nat.min_eq_left h]
  by_cases hr : can.flags &&& BLF_CANMESSAGE_FLAG_RTR = BLF_CANMESSAGE_FLAG_RTR
  · have hfill := blf_can_fill_buf_and_rec_run stream (can.id ||| CAN_RTR_FLAG) 0 0
      (data_start + blf_canmessage_size) flags ts can.channel (by omega)
    cases can_message2 with
    | false =>
      simp [blf_read_canmessage, hhdr, hr, hfill,
        if_neg (by omega : ¬ object_length
          < (data_start - block_start) + blf_canmessage_size)]
    | true =>
      simp [blf_read_canmessage, hhdr, htrl, hr, hfill,
        if_neg (by omega : ¬ object_length
          < (data_start - block_start) + blf_canmessage_size),
        if_neg (by omega : ¬ object_length < (data_start - block_start)
          + blf_canmessage_size + 8 + blf_canmessage2_trailer_size)]
  · have hfill := blf_can_fill_buf_and_rec_run stream can.id
      (min (can.dlc &&& 0x0f) 8) (min (can.dlc &&& 0x0f) 8)
      (data_start + blf_canmessage_size) flags ts can.channel
      (by have : min (can.dlc &&& 0x0f) 8 ≤ 8 := Nat.min_le_right _ _
          omega)
    cases can_message2 with
    | false =>
      simp [blf_read_canmessage, hhdr, hminPL, hr, hfill,
        if_neg (by omega : ¬ object_length
          < (data_start - block_start) + blf_canmessage_size)]
    | true =>
      simp [blf_read_canmessage, hhdr, htrl, hminPL, hr, hfill,
        if_neg (by omega : ¬ object_length
          < (data_start - block_start) + blf_canmessage_size),
        if_neg (by omega : ¬ object_length < (data_start - block_start)
          + blf_canmessage_size + 8 + blf_canmessage2_trailer_size)]

/-- Scenario S3 of the spec: classic CAN with RTR set, id 0x123, dlc 3. -/
def s3Header : BlfCanMessageHeader :=
  { channel := 1, flags := BLF_CANMESSAGE_FLAG_RTR, dlc := 3, id := 0x123 }

theorem blf_read_canmessage_rtr_behavior_witness :
    blf_read_canmessage (List.replicate 64 0) 0 32 64 s3Header 2 0 false
      = .ok { record := blf_init_rec 2 0 .socketcan 1 UINT16_MAX 8 8
              buf := [0x40, 0x00, 0x01, 0x23, 0, 0, 0, 0]
              direction_opt := some 1
              pkt_queue_opt := none } := by
  have h := blf_read_canmessage_rtr_behavior (List.replicate 64 0) 0 32 64 s3Header 2 0
    false
    (by norm_num [blf_canmessage_size, blf_canmessage2_trailer_size])
    (by norm_num [blf_canmessage_size, blf_canmessage2_trailer_size])
  rw [h]
  rfl

/-! ### C6: CAN-FD capture-length clamping -/

/-- CAN-FD header for the C6 counterexample: EDL set, dlc 11 (20 bytes),
`validDataBytes` 20, inside an object that has only 4 bytes left after the
type header. -/
def c6Header : BlfCanFdMessageHeader :=
  { channel := 1, flags := 0, dlc := 11, id := 0x123, frameLength_in_ns := 0,
    arbitration_bit_count := 0, canfdflags := BLF_CANFDMESSAGE_CANFDFLAG_EDL,
    validDataBytes := 20 }

/-- C6 counterexample: with `object_length = 56`, `block_start = 0`,
`data_start = 32` the object has `56 - 32 - 20 = 4` bytes left after the
CAN-FD type header, yet the decoder captures all 20 payload bytes (capture
length 28 = 8 + 20): the clamp `payload_length_valid >
object_length - (data_start - block_start) + sizeof(canheader)` does not
fire, so the captured bytes exceed the object's remaining bytes after the
type header. -/
theorem blf_canfd_clamp_counterexample :
    blf_read_canfdmessage (List.replicate 80 7) 0 32 56 c6Header 2 0
      = .ok { record := blf_init_rec 2 0 .socketcan 1 UINT16_MAX 28 28
              buf := [0x00, 0x00, 0x01, 0x23, 20, 0, 0, 0] ++ List.replicate 20 7
              direction_opt := some 1
              pkt_queue_opt := none } ∧
    ¬ (28 - 8 ≤ 56 - 32 - blf_canfdmessage_size) := by
  exact ⟨rfl, by decide⟩

lemma blf_can_fill_caplen {stream : List Nat} {canid PL PLv startp flags ts channel : Nat}
    {out : DecodeOut}
    (h : blf_can_fill_buf_and_rec stream canid PL PLv startp flags ts channel = .ok out) :
    out.record.caplen = 8 + PLv := by
  unfold blf_can_fill_buf_and_rec at h
  split at h
  · split at h
    · exact absurd h (by simp)
    · injection h with h
      subst h
      rfl
  · injection h with h
    subst h
    rfl

lemma blf_can_fill_caplen_le {stream : List Nat}
    {canid PL PLv startp flags ts channel B : Nat} {out : DecodeOut}
    (h : blf_can_fill_buf_and_rec stream canid PL PLv startp flags ts channel = .ok out)
    (hB : PLv ≤ B) :
    out.record.caplen ≤ 8 + B := by
  have := blf_can_fill_caplen h
  omega

lemma blf_canfdmessage_plv_le (object_length gap v : Nat) :
    blf_canfdmessage_payload_length_valid object_length gap v
      ≤ (object_length - gap) + blf_canfdmessage_size := by
  unfold blf_canfdmessage_payload_length_valid
  split
  · exact le_trans (Nat.mod_le _ _) (Nat.le_add_right _ _)
  · omega

lemma blf_canfdmessage64_plv_le (object_length gap v : Nat) :
    blf_canfdmessage64_payload_length_valid object_length gap v
      ≤ object_length - gap := by
  unfold blf_canfdmessage64_payload_length_valid
  split
  · exact Nat.mod_le _ _
  · omega

lemma blf_read_canfdmessage_ok_caplen {stream : List Nat}
    {block_start data_start object_length : Nat} {can : BlfCanFdMessageHeader}
    {flags ts : Nat} {out : DecodeOut}
    (h : blf_read_canfdmessage stream block_start data_start object_length can flags ts
      = .ok out) :
    out.record.caplen ≤ 8 + ((object_length - (data_start - block_start))
      + blf_canfdmessage_size) := by
  simp only [blf_read_canfdmessage] at h
  split at h
  · exact absurd h (by simp)
  · split at h
    · exact absurd h (by simp)
    · split at h
      · exact absurd h (by simp)
      · rename_i out0 hfill
        injection h with h
        subst h
        show out0.record.caplen ≤ _
        exact blf_can_fill_caplen_le hfill (blf_canfdmessage_plv_le _ _ _)

lemma blf_read_canfdmessage64_ok_caplen {stream : List Nat}
    {block_start data_start object_length : Nat} {can : BlfCanFdMessage64Header}
    {flags ts : Nat} {out : DecodeOut}
    (h : blf_read_canfdmessage64 stream block_start data_start object_length can flags ts
      = .ok out) :
    out.record.caplen ≤ 8 + (object_length - (data_start - block_start)) := by
  simp only [blf_read_canfdmessage64] at h
  split at h
  · exact absurd h (by simp)
  · split at h
    · exact absurd h (by simp)
    · split at h
      · exact absurd h (by simp)
      · rename_i out0 hfill
        injection h with h
        subst h
        show out0.record.caplen ≤ _
        exact blf_can_fill_caplen_le hfill (blf_canfdmessage64_plv_le _ _ _)

/-- C6 amended: the DLC-table payload length is first clamped to
`validDataBytes`; the captured length is then clamped against
`object_length - (data_start - block_start) + sizeof(canheader)` in
CAN_FD_MESSAGE (the `+` term the spec flags as a likely typo) and against
`object_length - (data_start - block_start)` in CAN_FD_MESSAGE_64, the
clamped value being the remaining object bytes including the type header; a
partial frame is emitted rather than failing, but neither decoder limits the
capture to the object's remaining bytes after the type header: the captured
length is only guaranteed not to exceed the remaining bytes including the
type header for the 64 variant, plus `sizeof(canheader)` more for the non-64
variant. -/
theorem blf_canfd_clamp_bounds :
    (∀ canfd dlc validDataBytes,
      blf_canfd_payload_length canfd dlc validDataBytes
        = min (if canfd then canfd_dlc_to_length.getD dlc 0
               else can_dlc_to_length.getD dlc 0) validDataBytes) ∧
    (∀ object_length gap v,
      blf_canfdmessage_payload_length_valid object_length gap v
        ≤ (object_length - gap) + blf_canfdmessage_size) ∧
    (∀ object_length gap v,
      blf_canfdmessage64_payload_length_valid object_length gap v
        ≤ object_length - gap) ∧
    (∀ stream block_start data_start object_length
        (can : BlfCanFdMessageHeader) flags ts out,
      blf_read_canfdmessage stream block_start data_start object_length can flags ts
        = .ok out →
      out.record.caplen ≤ 8 + (object_length - (data_start - block_start))
        + blf_canfdmessage_size) ∧
    (∀ stream block_start data_start object_length
        (can : BlfCanFdMessage64Header) flags ts out,
      blf_read_canfdmessage64 stream block_start data_start object_length can flags ts
        = .ok out →
      out.record.caplen ≤ 8 + (object_length - (data_start - block_start))) := by
  refine ⟨?_, blf_canfdmessage_plv_le, blf_canfdmessage64_plv_le, ?_, ?_⟩
  · intro canfd dlc validDataBytes
    unfold blf_canfd_payload_length
    cases canfd <;> dsimp <;> split <;> omega
  · intro stream block_start data_start object_length can flags ts out h
    have := blf_read_canfdmessage_ok_caplen h
    omega
  · intro stream block_start data_start object_length can flags ts out h
    exact blf_read_canfdmessage64_ok_caplen h

/-- CAN_FD_MESSAGE_64 header for the C6 witness: dlc 15 (64 bytes) inside an
object with 44 bytes left after the block and object headers. -/
def c6wHeader : BlfCanFdMessage64Header :=
  { channel := 1, dlc := 15, validDataBytes := 64, id := 5,
    flags := BLF_CANFDMESSAGE64_FLAG_EDL, dir := 0 }

/-- Output of the C6 witness run of the 64 variant: the capture is clamped
to the 44 remaining bytes, the wire length keeps the nominal 64. -/
def c6wOut : DecodeOut :=
  { record := blf_init_rec 2 0 .socketcan 1 UINT16_MAX 52 72
    buf := [0, 0, 0, 5, 64, 0, 0, 0] ++ List.replicate 44 3
    direction_opt := some 1
    pkt_queue_opt := none }

/-- Output of the C6 witness run of the non-64 variant. -/
def c6wOutFd : DecodeOut :=
  { record := blf_init_rec 2 0 .socketcan 1 UINT16_MAX 28 28
    buf := [0, 0, 1, 0x23, 20, 0, 0, 0] ++ List.replicate 20 4
    direction_opt := some 1
    pkt_queue_opt := none }

theorem blf_canfd_clamp_bounds_witness :
    blf_read_canfdmessage64 (List.replicate 120 3) 0 32 76 c6wHeader 2 0 = .ok c6wOut ∧
    c6wOut.record.caplen ≤ 8 + (76 - 32) ∧
    blf_read_canfdmessage (List.replicate 80 4) 0 32 56 c6Header 2 0 = .ok c6wOutFd ∧
    c6wOutFd.record.caplen ≤ 8 + (56 - 32) + blf_canfdmessage_size := by
  have hrun64 : blf_read_canfdmessage64 (List.replicate 120 3) 0 32 76 c6wHeader 2 0
      = .ok c6wOut := rfl
  have hrunfd : blf_read_canfdmessage (List.replicate 80 4) 0 32 56 c6Header 2 0
      = .ok c6wOutFd := rfl
  exact ⟨hrun64,
    blf_canfd_clamp_bounds.2.2.2.2 (List.replicate 120 3) 0 32 76 c6wHeader 2 0
      c6wOut hrun64,
    hrunfd,
    blf_canfd_clamp_bounds.2.2.2.1 (List.replicate 80 4) 0 32 56 c6Header 2 0
      c6wOutFd hrunfd⟩

/-! ### Object demultiplexer: `blf_read_block`

The demux walks the virtual stream: block header (with one-byte resync),
log-object header v1/v2/v3, cursor updates, and the per-type dispatch.  The
APP_TEXT handling (including the METADATA continuation state machine) is
modelled in full; the remaining per-type decoders are abstracted by an
`OtherDecoder` oracle parameter because their on-disk struct layouts live in
`blf.h`, which is absent from the sources under review (the standalone
struct-level decoders above model their logic).  The exported-PDU wrapper
built by the host (out of scope per the spec) is the `epduOf` parameter. -/

/-- The caller-owned packet buffer (`Buffer`): an underlying byte store and
the fill mark `first_free` (relative to `start`).  Resetting only moves the
mark; the bytes stay, which is what the METADATA continuation relies on. -/
structure WsBuffer where
  store : List Nat
  first_free : Nat
  deriving Repr, DecidableEq

/-- Loop-top reset `buf->first_free = buf->start`. -/
def wsReset (b : WsBuffer) : WsBuffer := { b with first_free := 0 }

/-- `ws_buffer_append`: write at the fill mark, keeping bytes beyond the
write untouched. -/
def wsAppend (b : WsBuffer) (bs : List Nat) : WsBuffer :=
  { store := b.store.take b.first_free ++ bs ++ b.store.drop (b.first_free + bs.length)
    first_free := b.first_free + bs.length }

/-- Restore of the fill mark (`buf->first_free = metadata_cont`). -/
def wsSetFirstFree (b : WsBuffer) (m : Nat) : WsBuffer := { b with first_free := m }

/-- `ws_buffer_length`. -/
def wsLength (b : WsBuffer) : Nat := b.first_free

/-- Bytes the buffer currently holds, `[start, first_free)`. -/
def wsContent (b : WsBuffer) : List Nat := b.store.take b.first_free

/-- Modelled from the spec: APP_TEXT source codes (`blf.h`). -/
def BLF_APPTEXT_COMMENT : Nat := 0

/-- Modelled from the spec: APP_TEXT source code CHANNEL. -/
def BLF_APPTEXT_CHANNEL : Nat := 1

/-- Modelled from the spec: APP_TEXT source code METADATA. -/
def BLF_APPTEXT_METADATA : Nat := 2

/-- Modelled from the spec: APP_TEXT source code ATTACHMENT. -/
def BLF_APPTEXT_ATTACHMENT : Nat := 3

/-- Modelled from the spec: APP_TEXT source code TRACELINE. -/
def BLF_APPTEXT_TRACELINE : Nat := 4

/-- Return code of `blf_read_apptextmessage` (`BLF_APPTEXT_FAILED`,
`BLF_APPTEXT_CONT` and the source codes the C function hands back). -/
inductive AppTextCode where
  | failed (e : WtapErr)
  | channelCode
  | contCode
  | metadataCode
  | commentCode
  | attachmentCode
  | tracelineCode
  deriving Repr, DecidableEq

/-- Fields of `blf_apptext_t` the code consumes; layout (four packed
little-endian u32: source, reservedAppText1, textLength, reservedAppText2)
follows the spec's field list and `fix_endianness_blf_apptext_header`. -/
structure BlfAppTextHeader where
  source : Nat
  reservedAppText1 : Nat
  textLength : Nat
  deriving Repr, DecidableEq

/-- `sizeof(blf_apptext_t)`. -/
def blf_apptext_size : Nat := 16

/-- Read and decode an APP_TEXT header at `pos`. -/
def parseAppTextHeader (stream : List Nat) (pos : Nat) : Option BlfAppTextHeader :=
  (readBytesAt stream pos blf_apptext_size).map fun bs =>
    { source := leVal (bs.take 4)
      reservedAppText1 := leVal ((bs.drop 4).take 4)
      textLength := leVal ((bs.drop 8).take 4) }

/-- APP_TEXT decoder (`blf_read_apptextmessage`, lines 1986-2135).
CHANNEL sources only feed the interface registry (outside the modelled
state) and emit nothing; METADATA sources restore the fill mark when a
sequence is being continued (nonzero `metadata_cont`), append an
exported-PDU wrapper when starting fresh, append the text, and continue (no
record) exactly when `(reservedAppText1 & 0x00ffffff) > textLength`,
otherwise emitting one upper-PDU record whose capture and wire length are
the whole buffered byte count; COMMENT / ATTACHMENT / TRACELINE emit one
upper-PDU record with the text up to the first NUL; unknown sources emit
nothing. -/
def blf_read_apptextmessage (epduOf : Nat → List Nat) (stream : List Nat)
    (block_start data_start object_length : Nat) (flags object_timestamp : Nat)
    (metadata_cont : Nat) (buf : WsBuffer) :
    AppTextCode × WsBuffer × Option BlfRec :=
  if object_length < (data_start - block_start) + blf_apptext_size then
    (.failed .badFile, buf, none)
  else
    match parseAppTextHeader stream data_start with
    | none => (.failed .shortRead, buf, none)
    | some hdr =>
      let metadata_cont :=
        if metadata_cont ≠ 0 ∧ hdr.source ≠ BLF_APPTEXT_METADATA then 0
        else metadata_cont
      match readBytesAt stream (data_start + blf_apptext_size) hdr.textLength with
      | none => (.failed .shortRead, buf, none)
      | some text =>
        if hdr.source = BLF_APPTEXT_CHANNEL then
          (.channelCode, buf, none)
        else if hdr.source = BLF_APPTEXT_METADATA then
          let buf1 := if metadata_cont ≠ 0 then wsSetFirstFree buf metadata_cont
                      else wsAppend buf (epduOf BLF_APPTEXT_METADATA)
          let buf2 := wsAppend buf1 text
          if hdr.reservedAppText1 &&& 0x00ffffff > hdr.textLength then
            (.contCode, buf2, none)
          else
            (.metadataCode, buf2,
             some (blf_init_rec flags object_timestamp .upperPdu 0 UINT16_MAX
               (wsLength buf2 % U32MOD) (wsLength buf2 % U32MOD)))
        else if hdr.source = BLF_APPTEXT_COMMENT ∨ hdr.source = BLF_APPTEXT_ATTACHMENT
            ∨ hdr.source = BLF_APPTEXT_TRACELINE then
          let buf1 := wsAppend buf (epduOf hdr.source)
          let buf2 := wsAppend buf1 (text.takeWhile (fun b => b ≠ 0))
          ((if hdr.source = BLF_APPTEXT_COMMENT then AppTextCode.commentCode
            else if hdr.source = BLF_APPTEXT_ATTACHMENT then AppTextCode.attachmentCode
            else AppTextCode.tracelineCode), buf2,
           some (blf_init_rec flags object_timestamp .upperPdu 0 UINT16_MAX
             (wsLength buf2 % U32MOD) (wsLength buf2 % U32MOD)))
        else (.channelCode, buf, none)

/-- Modelled from the spec: object-type codes from `blf.h` used by the
dispatch; only distinctness matters for the claims. -/
def BLF_OBJTYPE_CAN_MESSAGE : Nat := 1

/-- Object-type code CAN_ERROR. -/
def BLF_OBJTYPE_CAN_ERROR : Nat := 2

/-- Object-type code FLEXRAY_MESSAGE. -/
def BLF_OBJTYPE_FLEXRAY_MESSAGE : Nat := 7

/-- Object-type code LIN_MESSAGE. -/
def BLF_OBJTYPE_LIN_MESSAGE : Nat := 12

/-- Object-type code FLEXRAY_DATA. -/
def BLF_OBJTYPE_FLEXRAY_DATA : Nat := 29

/-- Object-type code FLEXRAY_RCVMESSAGE. -/
def BLF_OBJTYPE_FLEXRAY_RCVMESSAGE : Nat := 49

/-- Object-type code APP_TEXT. -/
def BLF_OBJTYPE_APP_TEXT : Nat := 65

/-- Object-type code FLEXRAY_RCVMESSAGE_EX. -/
def BLF_OBJTYPE_FLEXRAY_RCVMESSAGE_EX : Nat := 66

/-- Object-type code ETHERNET_FRAME. -/
def BLF_OBJTYPE_ETHERNET_FRAME : Nat := 71

/-- Object-type code CAN_ERROR_EXT. -/
def BLF_OBJTYPE_CAN_ERROR_EXT : Nat := 73

/-- Object-type code CAN_MESSAGE2. -/
def BLF_OBJTYPE_CAN_MESSAGE2 : Nat := 86

/-- Object-type code WLAN_FRAME. -/
def BLF_OBJTYPE_WLAN_FRAME : Nat := 97

/-- Object-type code CAN_FD_MESSAGE. -/
def BLF_OBJTYPE_CAN_FD_MESSAGE : Nat := 100

/-- Object-type code CAN_FD_MESSAGE_64. -/
def BLF_OBJTYPE_CAN_FD_MESSAGE_64 : Nat := 101

/-- Object-type code CAN_FD_ERROR_64. -/
def BLF_OBJTYPE_CAN_FD_ERROR_64 : Nat := 104

/-- Object-type code ETHERNET_FRAME_EX. -/
def BLF_OBJTYPE_ETHERNET_FRAME_EX : Nat := 120

/-- Object-type code ETHERNET_STATUS. -/
def BLF_OBJTYPE_ETHERNET_STATUS : Nat := 124

/-- The object types (other than LOG_CONTAINER and APP_TEXT) for which the
dispatch in `blf_read_block` calls a per-type decoder and returns; any type
outside this list is skipped silently. -/
def blf_known_object_types : List Nat :=
  [BLF_OBJTYPE_ETHERNET_FRAME, BLF_OBJTYPE_ETHERNET_FRAME_EX, BLF_OBJTYPE_WLAN_FRAME,
   BLF_OBJTYPE_CAN_MESSAGE, BLF_OBJTYPE_CAN_ERROR, BLF_OBJTYPE_CAN_MESSAGE2,
   BLF_OBJTYPE_CAN_ERROR_EXT, BLF_OBJTYPE_CAN_FD_MESSAGE, BLF_OBJTYPE_CAN_FD_MESSAGE_64,
   BLF_OBJTYPE_CAN_FD_ERROR_64, BLF_OBJTYPE_FLEXRAY_DATA, BLF_OBJTYPE_FLEXRAY_MESSAGE,
   BLF_OBJTYPE_FLEXRAY_RCVMESSAGE, BLF_OBJTYPE_FLEXRAY_RCVMESSAGE_EX,
   BLF_OBJTYPE_LIN_MESSAGE, BLF_OBJTYPE_ETHERNET_STATUS]

/-- Size of the v1 log-object header (spec section 3). -/
def blf_logobjectheader_size : Nat := 16

/-- Size of the v2 log-object header (spec section 3). -/
def blf_logobjectheader2_size : Nat := 24

/-- Modelled from the spec: size of the v3 log-object header per the field
list of spec section 3. -/
def blf_logobjectheader3_size : Nat := 22

/-- Demux-visible session state (`blf_t`): the locator of the object most
recently emitted and the sequential read cursor. -/
structure BlfState where
  start_of_last_obj : Nat
  current_real_seek_pos : Nat
  deriving Repr, DecidableEq

/-- Outcome of `blf_read_block`: the C return value, the error stored
through `*err` (`none` both on success and on the clean-EOF return), the
session state, the buffer, and the record if one was emitted. -/
structure ReadBlockOut where
  ok : Bool
  err : Option WtapErr
  st : BlfState
  buf : WsBuffer
  record : Option BlfRec
  deriving Repr, DecidableEq

/-- Oracle standing for the per-type decoders whose struct layouts are not
derivable from the sources under review: given the object's start position,
its block header, the unified flags/timestamp pair and the buffer, it
returns the C decoder's boolean result, the error (if any), the buffer and
the record. -/
def OtherDecoder : Type :=
  Nat → BlfBlockHeader → Nat → Nat → WsBuffer → Bool × Option WtapErr × WsBuffer × Option BlfRec

/-- Control flow of one iteration of the `blf_read_block` loop: either the
function returns (`done`) or the loop continues at a new position with
updated state (`next`). -/
inductive StepResult where
  | done (out : ReadBlockOut)
  | next (start_pos : Nat) (st : BlfState) (buf : WsBuffer)
      (metadata_cont last_metadata_start : Nat)
  deriving Repr

/-- One iteration of the `blf_read_block` loop (lines 2211-2398).  It
resets the buffer fill mark, reads the block header (clean EOF on a short
read, one-byte resync on a bad magic), records `start_of_last_obj`, reads
the v1/v2/v3 log-object header selected by `header_type` (BadFile when it
does not fit below `header_length`, an EOF result on a short read,
Unsupported on an unknown type), unconditionally advances
`current_real_seek_pos` to
`start_pos + max(max(16, object_length), header_length)`, resets the
METADATA continuation when a non-APP_TEXT object arrives, and dispatches:
nested LOG_CONTAINER is Unsupported; APP_TEXT follows
`blf_read_apptextmessage` (buffering continuations, restoring
`start_of_last_obj` to the sequence start when a multi-object METADATA
sequence ends, and looping without a record for CHANNEL and unknown
sources); the other known types go to their decoder and return; unknown
types are skipped. -/
def blf_read_block_step (other : OtherDecoder) (epduOf : Nat → List Nat)
    (stream : List Nat) (start_pos : Nat) (st : BlfState) (buf : WsBuffer)
    (metadata_cont last_metadata_start : Nat) : StepResult :=
    let buf := wsReset buf
    match parseBlockHeader stream start_pos with
    | none =>
      .done { ok := false, err := none, st := st, buf := buf, record := none }
    | some header =>
      if header.magic ≠ LOBJ then
        .next (start_pos + 1) st buf metadata_cont last_metadata_start
      else
        let st := { st with start_of_last_obj := start_pos }
        let hsize : Option Nat :=
          if header.header_type = BLF_HEADER_TYPE_DEFAULT then
            some blf_logobjectheader_size
          else if header.header_type = BLF_HEADER_TYPE_2 then
            some blf_logobjectheader2_size
          else if header.header_type = BLF_HEADER_TYPE_3 then
            some blf_logobjectheader3_size
          else none
        match hsize with
        | none =>
          .done { ok := false, err := some .unsupported, st := st, buf := buf,
                  record := none }
        | some hs =>
          if header.header_length - blf_blockheader_size < hs then
            .done { ok := false, err := some .badFile, st := st, buf := buf,
                    record := none }
          else
            match readBytesAt stream (start_pos + blf_blockheader_size) hs with
            | none =>
              .done { ok := false, err := none, st := st, buf := buf, record := none }
            | some hb =>
              let flags := leVal (hb.take 4)
              let tsOff : Nat :=
                if header.header_type = BLF_HEADER_TYPE_3 then 14 else 8
              let object_timestamp := leVal ((hb.drop tsOff).take 8)
              let st := { st with
                current_real_seek_pos :=
                  start_pos + max (max 16 header.object_length) header.header_length }
              let last_metadata_start :=
                if metadata_cont ≠ 0 ∧ header.object_type ≠ BLF_OBJTYPE_APP_TEXT then 0
                else last_metadata_start
              let metadata_cont :=
                if metadata_cont ≠ 0 ∧ header.object_type ≠ BLF_OBJTYPE_APP_TEXT then 0
                else metadata_cont
              if header.object_type = BLF_OBJTYPE_LOG_CONTAINER then
                .done { ok := false, err := some .unsupported, st := st, buf := buf,
                        record := none }
              else if header.object_type = BLF_OBJTYPE_APP_TEXT then
                match blf_read_apptextmessage epduOf stream start_pos
                    (start_pos + header.header_length) header.object_length flags
                    object_timestamp metadata_cont buf with
                | (.contCode, buf1, _) =>
                  .next
                    (start_pos + max (max 16 header.object_length) header.header_length)
                    st buf1 buf1.first_free
                    (if metadata_cont = 0 then start_pos else last_metadata_start)
                | (.metadataCode, buf1, rec) =>
                  .done { ok := true, err := none,
                          st := { st with start_of_last_obj :=
                            if metadata_cont ≠ 0 then last_metadata_start
                            else st.start_of_last_obj },
                          buf := buf1, record := rec }
                | (.commentCode, buf1, rec) =>
                  .done { ok := true, err := none, st := st, buf := buf1, record := rec }
                | (.attachmentCode, buf1, rec) =>
                  .done { ok := true, err := none, st := st, buf := buf1, record := rec }
                | (.tracelineCode, buf1, rec) =>
                  .done { ok := true, err := none, st := st, buf := buf1, record := rec }
                | (.channelCode, buf1, _) =>
                  .next
                    (start_pos + max (max 16 header.object_length) header.header_length)
                    st buf1 0 0
                | (.failed e, buf1, _) =>
                  .done { ok := false, err := some e, st := st, buf := buf1,
                          record := none }
              else if blf_known_object_types.contains header.object_type then
                let r := other start_pos header flags object_timestamp buf
                .done { ok := r.1, err := r.2.1, st := st, buf := r.2.2.1,
                        record := r.2.2.2 }
              else
                .next
                  (start_pos + max (max 16 header.object_length) header.header_length)
                  st buf metadata_cont last_metadata_start

/-- The `blf_read_block` loop, fueled (every iteration advances the
position, so any fuel beyond the remaining stream length is enough; running
out of fuel yields the clean-EOF result). -/
def blf_read_block (other : OtherDecoder) (epduOf : Nat → List Nat) (stream : List Nat) :
    Nat → Nat → BlfState → WsBuffer → Nat → Nat → ReadBlockOut
  | 0, _, st, buf, _, _ =>
    { ok := false, err := none, st := st, buf := buf, record := none }
  | fuel + 1, start_pos, st, buf, metadata_cont, last_metadata_start =>
    match blf_read_block_step other epduOf stream start_pos st buf
        metadata_cont last_metadata_start with
    | .done out => out
    | .next p st1 buf1 mc1 lms1 =>
      blf_read_block other epduOf stream fuel p st1 buf1 mc1 lms1

/-- Sequential read (`blf_read`, lines 2402-2417): starts from the session
cursor with a fresh METADATA state. -/
def blf_read_session (other : OtherDecoder) (epduOf : Nat → List Nat) (stream : List Nat)
    (fuel : Nat) (st : BlfState) (buf : WsBuffer) : ReadBlockOut :=
  blf_read_block other epduOf stream fuel st.current_real_seek_pos st buf 0 0

/-- Random read (`blf_seek_read`, lines 2419-2434): same demux, started at
the caller-supplied virtual offset, sharing the same session state. -/
def blf_seek_read (other : OtherDecoder) (epduOf : Nat → List Nat) (stream : List Nat)
    (fuel : Nat) (seek_off : Nat) (st : BlfState) (buf : WsBuffer) : ReadBlockOut :=
  blf_read_block other epduOf stream fuel seek_off st buf 0 0

/-! ### Byte images of APP_TEXT METADATA objects (for concrete runs and the
C2 sequence theorem) -/

/-- Block-header bytes of an APP_TEXT object with `header_length = 32` and
the given object length. -/
def metaBlockHeaderBytes (objlen : Nat) : List Nat :=
  LOBJ ++ leBytes 2 32 ++ leBytes 2 1 ++ leBytes 4 objlen
    ++ leBytes 4 BLF_OBJTYPE_APP_TEXT

/-- Bytes of a v1 log-object header with zero client index and version. -/
def logObjV1Bytes (flags ts : Nat) : List Nat :=
  leBytes 4 flags ++ leBytes 2 0 ++ leBytes 2 0 ++ leBytes 8 ts

/-- Bytes of an APP_TEXT type header. -/
def appTextHeaderBytes (source r1 tlen : Nat) : List Nat :=
  leBytes 4 source ++ (leBytes 4 r1 ++ (leBytes 4 tlen ++ leBytes 4 0))

/-- Byte image of one APP_TEXT object with source METADATA, `reserved1 = r1`
and body `t`: 16-byte block header, 16-byte v1 log-object header, 16-byte
APP_TEXT header, then the text; `object_length = 48 + |t|`. -/
def mkMetaObj (flags ts r1 : Nat) (t : List Nat) : List Nat :=
  metaBlockHeaderBytes (48 + t.length)
    ++ (logObjV1Bytes flags ts
      ++ (appTextHeaderBytes BLF_APPTEXT_METADATA r1 t.length ++ t))

/-! ### C3: random reads and the sequential cursor -/

/-- Trivial oracle (never consulted in the runs below). -/
def c3Other : OtherDecoder := fun _ _ _ _ b => (false, none, b, none)

/-- A nonempty stand-in for the host's exported-PDU wrapper. -/
def epduOne : Nat → List Nat := fun _ => [1]

/-- A single terminating METADATA object of 2 text bytes at offset 0. -/
def c3Stream : List Nat := mkMetaObj 2 0 0 [72, 73]

/-- Session state before the random read: the sequential cursor is 999. -/
def c3State : BlfState := { start_of_last_obj := 5, current_real_seek_pos := 999 }

/-- An empty packet buffer. -/
def emptyBuf : WsBuffer := { store := [], first_free := 0 }

/-- C3 counterexample: a successful random read at offset 0 overwrites the
session's sequential cursor (999 before the call) with the position just
past the object it decoded (50), because `blf_read_block` line 2275 updates
`current_real_seek_pos` unconditionally and `blf_seek_read` runs the same
loop on the shared session state. -/
theorem blf_seek_read_cursor_counterexample :
    (blf_seek_read c3Other epduOne c3Stream 2 0 c3State emptyBuf).ok = true ∧
    (blf_seek_read c3Other epduOne c3Stream 2 0 c3State emptyBuf).st.current_real_seek_pos
      = 50 ∧
    c3State.current_real_seek_pos = 999 ∧ (50 : Nat) ≠ 999 := by
  refine ⟨rfl, rfl, rfl, by decide⟩

lemma blf_read_block_step_done_ok {other : OtherDecoder} {epduOf : Nat → List Nat}
    {stream : List Nat} {start_pos : Nat} {st : BlfState} {buf : WsBuffer}
    {mc lms : Nat} {out : ReadBlockOut}
    (h : blf_read_block_step other epduOf stream start_pos st buf mc lms
      = .done out)
    (hok : out.ok = true) :
    ∃ header, parseBlockHeader stream start_pos = some header ∧ header.magic = LOBJ ∧
      out.st.current_real_seek_pos
        = start_pos + max (max 16 header.object_length) header.header_length := by
  unfold blf_read_block_step at h
  split at h
  · injection h with h
    subst h
    simp at hok
  · rename_i header hp
    split at h
    · simp at h
    · rename_i hm
      refine ⟨header, hp, not_not.mp hm, ?_⟩
      split at h
      all_goals
        repeat
          first
          | exact StepResult.noConfusion h
          | (injection h with h; subst h;
             first
             | rfl
             | exact absurd hok Bool.false_ne_true)
          | dsimp only at h
          | split at h

lemma blf_read_block_ok_cursor (other : OtherDecoder) (epduOf : Nat → List Nat)
    (stream : List Nat) :
    ∀ fuel start_pos st buf mc lms out,
      blf_read_block other epduOf stream fuel start_pos st buf mc lms = out →
      out.ok = true →
      ∃ p header, parseBlockHeader stream p = some header ∧ header.magic = LOBJ ∧
        out.st.current_real_seek_pos
          = p + max (max 16 header.object_length) header.header_length := by
  intro fuel
  induction fuel with
  | zero =>
    intro _ st buf mc lms out heq hok
    simp only [blf_read_block] at heq
    rw [← heq] at hok
    simp at hok
  | succ n ih =>
    intro start_pos st buf mc lms out heq hok
    simp only [blf_read_block] at heq
    split at heq
    · rename_i out0 hstep
      subst heq
      obtain ⟨header, h1, h2, h3⟩ := blf_read_block_step_done_ok hstep hok
      exact ⟨start_pos, header, h1, h2, h3⟩
    · rename_i p st1 buf1 mc1 lms1 hstep
      exact ih p st1 buf1 mc1 lms1 out heq hok

/-- C3 amended: a successful random read does advance the session's
sequential cursor: after `blf_seek_read` returns a record,
`current_real_seek_pos` equals `p + max(max(16, object_length),
header_length)` for the block header parsed at some position `p` reached
from the seek offset -- the same unconditional update (line 2275) a
sequential read performs -- rather than retaining its previous value. -/
theorem blf_seek_read_advances_cursor (other : OtherDecoder) (epduOf : Nat → List Nat)
    (stream : List Nat) (fuel seek_off : Nat) (st : BlfState) (buf : WsBuffer)
    (hok : (blf_seek_read other epduOf stream fuel seek_off st buf).ok = true) :
    ∃ p header, parseBlockHeader stream p = some header ∧ header.magic = LOBJ ∧
      (blf_seek_read other epduOf stream fuel seek_off st buf).st.current_real_seek_pos
        = p + max (max 16 header.object_length) header.header_length :=
  blf_read_block_ok_cursor other epduOf stream fuel seek_off st buf 0 0 _ rfl hok

theorem blf_seek_read_advances_cursor_witness :
    ∃ p header, parseBlockHeader c3Stream p = some header ∧ header.magic = LOBJ ∧
      (blf_seek_read c3Other epduOne c3Stream 2 0 c3State
          emptyBuf).st.current_real_seek_pos
        = p + max (max 16 header.object_length) header.header_length := by
  exact blf_seek_read_advances_cursor c3Other epduOne c3Stream 2 0 c3State emptyBuf rfl

/-! ### Parsing lemmas for METADATA object images -/

lemma leBytes_length (w n : Nat) : (leBytes w n).length = w := by
  induction w generalizing n with
  | zero => rfl
  | succ k ih => simp [leBytes, ih]

lemma mkMetaObj_length (flags ts r1 : Nat) (t : List Nat) :
    (mkMetaObj flags ts r1 t).length = 48 + t.length := by
  simp [mkMetaObj, metaBlockHeaderBytes, logObjV1Bytes, appTextHeaderBytes,
    leBytes_length, LOBJ]
  omega

lemma readBytesAt_append_mid (pre mid post : List Nat) (k n : Nat)
    (h : k + n ≤ mid.length) :
    readBytesAt (pre ++ (mid ++ post)) (pre.length + k) n
      = some ((mid.drop k).take n) := by
  unfold readBytesAt
  rw [if_pos (by simp; omega)]
  congr 1
  rw [List.drop_append_eq_append_drop]
  rw [List.drop_of_length_le (by omega), List.nil_append]
  have h2 : pre.length + k - pre.length = k := by omega
  rw [h2, List.drop_append_eq_append_drop]
  rw [List.take_append_eq_append_take]
  have h3 : n - (mid.drop k).length = 0 := by
    simp [List.length_drop]
    omega
  rw [h3, List.take_zero, List.append_nil]

lemma parseBlockHeader_mkMetaObj (pre post : List Nat) (flags ts r1 : Nat)
    (t : List Nat) (hL : 48 + t.length < 2 ^ 32) :
    parseBlockHeader (pre ++ (mkMetaObj flags ts r1 t ++ post)) pre.length
      = some { magic := LOBJ, header_length := 32, header_type := 1,
               object_length := 48 + t.length,
               object_type := BLF_OBJTYPE_APP_TEXT } := by
  have hmid := readBytesAt_append_mid pre (mkMetaObj flags ts r1 t) post 0 16
    (by rw [mkMetaObj_length]; omega)
  unfold parseBlockHeader
  rw [show pre.length = pre.length + 0 by omega, blf_blockheader_size, hmid]
  simp only [Option.map_some, List.drop_zero, Option.some.injEq]
  unfold parseBlockHeaderBytes mkMetaObj metaBlockHeaderBytes
  simp [leBytes, leVal, LOBJ, BLF_OBJTYPE_APP_TEXT]
  omega

lemma drop_append_len {A : List Nat} (B : List Nat) {k : Nat} (hA : A.length = k) :
    (A ++ B).drop k = B := by
  subst hA
  exact List.drop_left A B

lemma take_append_len {A : List Nat} (B : List Nat) {n : Nat} (hA : A.length = n) :
    (A ++ B).take n = A := by
  subst hA
  exact List.take_left A B

lemma mkMetaObj_drop16 (flags ts r1 : Nat) (t : List Nat) :
    (mkMetaObj flags ts r1 t).drop 16
      = logObjV1Bytes flags ts
        ++ (appTextHeaderBytes BLF_APPTEXT_METADATA r1 t.length ++ t) := by
  unfold mkMetaObj
  exact drop_append_len _ (by simp [metaBlockHeaderBytes, leBytes_length, LOBJ])

lemma mkMetaObj_drop32 (flags ts r1 : Nat) (t : List Nat) :
    (mkMetaObj flags ts r1 t).drop 32
      = appTextHeaderBytes BLF_APPTEXT_METADATA r1 t.length ++ t := by
  unfold mkMetaObj
  rw [← List.append_assoc]
  exact drop_append_len _ (by
    simp [metaBlockHeaderBytes, logObjV1Bytes, leBytes_length, LOBJ])

lemma mkMetaObj_drop48 (flags ts r1 : Nat) (t : List Nat) :
    (mkMetaObj flags ts r1 t).drop 48 = t := by
  unfold mkMetaObj
  rw [← List.append_assoc, ← List.append_assoc]
  exact drop_append_len _ (by
    simp [metaBlockHeaderBytes, logObjV1Bytes, appTextHeaderBytes, leBytes_length, LOBJ])

lemma logobj_mkMetaObj (pre post : List Nat) (flags ts r1 : Nat) (t : List Nat) :
    readBytesAt (pre ++ (mkMetaObj flags ts r1 t ++ post)) (pre.length + 16) 16
      = some (logObjV1Bytes flags ts) := by
  have hmid := readBytesAt_append_mid pre (mkMetaObj flags ts r1 t) post 16 16
    (by rw [mkMetaObj_length]; omega)
  rw [hmid, mkMetaObj_drop16]
  congr 1

lemma leVal_cons (a : Nat) (l : List Nat) : leVal (a :: l) = a % 256 + 256 * leVal l :=
  rfl

lemma leVal_leBytes (w n : Nat) : leVal (leBytes w n) = n % 2 ^ (8 * w) := by
  induction w generalizing n with
  | zero =>
    simp only [leBytes, leVal, List.foldr_nil, Nat.mul_zero, pow_zero, Nat.mod_one]
  | succ k ih =>
    have hpow : (2 : Nat) ^ (8 * (k + 1)) = 256 * 2 ^ (8 * k) := by
      rw [Nat.mul_succ, pow_add]
      ring
    rw [leBytes, leVal_cons, ih (n / 256), hpow, Nat.mod_mul]
    omega

lemma leVal_take4_logobj (flags ts : Nat) (hflags : flags < 2 ^ 32) :
    leVal ((logObjV1Bytes flags ts).take 4) = flags := by
  unfold logObjV1Bytes
  rw [List.append_assoc, List.append_assoc,
    take_append_len _ (leBytes_length 4 flags), leVal_leBytes]
  norm_num
  omega

lemma leVal_drop8_logobj (flags ts : Nat) (hts : ts < 2 ^ 64) :
    leVal (((logObjV1Bytes flags ts).drop 8).take 8) = ts := by
  unfold logObjV1Bytes
  rw [drop_append_len _ (by simp [leBytes_length]),
    List.take_of_length_le (by simp [leBytes_length]), leVal_leBytes]
  norm_num
  omega

/-! ### C2: the APP_TEXT METADATA continuation sequence -/

lemma wsContent_wsAppend (b : WsBuffer) (bs : List Nat) :
    wsContent (wsAppend b bs) = wsContent b ++ bs := by
  unfold wsContent wsAppend
  dsimp only
  rw [List.append_assoc, List.take_append_eq_append_take,
    List.take_of_length_le
      (show (b.store.take b.first_free).length ≤ b.first_free + bs.length by
        simp only [List.length_take]; omega),
    List.take_append_eq_append_take,
    List.take_of_length_le
      (show bs.length ≤ b.first_free + bs.length - (b.store.take b.first_free).length by
        simp only [List.length_take]; omega)]
  rcases le_or_lt b.first_free b.store.length with h | h
  · have h0 : b.first_free + bs.length - (b.store.take b.first_free).length - bs.length
        = 0 := by
      simp [List.length_take]
      omega
    rw [h0, List.take_zero, List.append_nil]
  · rw [List.drop_of_length_le (by omega), List.take_nil, List.append_nil]

lemma wsAppend_first_free (b : WsBuffer) (bs : List Nat) :
    (wsAppend b bs).first_free = b.first_free + bs.length := rfl

lemma wsAppend_store_le (b : WsBuffer) (bs : List Nat)
    (h : b.first_free ≤ b.store.length) :
    (wsAppend b bs).first_free ≤ (wsAppend b bs).store.length := by
  unfold wsAppend
  dsimp only
  simp [List.length_take]
  omega

lemma appTextHeaderBytes_fields (source r1 tlen : Nat) :
    leVal ((appTextHeaderBytes source r1 tlen).take 4) = source % 2 ^ 32 ∧
    leVal (((appTextHeaderBytes source r1 tlen).drop 4).take 4) = r1 % 2 ^ 32 ∧
    leVal (((appTextHeaderBytes source r1 tlen).drop 8).take 4) = tlen % 2 ^ 32 := by
  unfold appTextHeaderBytes
  refine ⟨?_, ?_, ?_⟩
  · rw [take_append_len _ (leBytes_length 4 source), leVal_leBytes]
  · rw [drop_append_len _ (leBytes_length 4 source),
      take_append_len _ (leBytes_length 4 r1), leVal_leBytes]
  · rw [← List.append_assoc,
      drop_append_len _ (by simp [leBytes_length]),
      take_append_len _ (leBytes_length 4 tlen), leVal_leBytes]

lemma parseAppTextHeader_mkMetaObj (pre post : List Nat) (flags ts r1 : Nat)
    (t : List Nat) (hr1 : r1 < 2 ^ 32) (ht : t.length < 2 ^ 32) :
    parseAppTextHeader (pre ++ (mkMetaObj flags ts r1 t ++ post)) (pre.length + 32)
      = some { source := BLF_APPTEXT_METADATA, reservedAppText1 := r1,
               textLength := t.length } := by
  have hmid := readBytesAt_append_mid pre (mkMetaObj flags ts r1 t) post 32 16
    (by rw [mkMetaObj_length]; omega)
  unfold parseAppTextHeader
  rw [blf_apptext_size, hmid, mkMetaObj_drop32,
    take_append_len _ (by simp [appTextHeaderBytes, leBytes_length])]
  simp only [Option.map_some', Option.some.injEq]
  rw [(appTextHeaderBytes_fields BLF_APPTEXT_METADATA r1 t.length).1,
    (appTextHeaderBytes_fields BLF_APPTEXT_METADATA r1 t.length).2.1,
    (appTextHeaderBytes_fields BLF_APPTEXT_METADATA r1 t.length).2.2,
    Nat.mod_eq_of_lt hr1, Nat.mod_eq_of_lt ht,
    Nat.mod_eq_of_lt (show BLF_APPTEXT_METADATA < 2 ^ 32 by norm_num [BLF_APPTEXT_METADATA])]

lemma text_mkMetaObj (pre post : List Nat) (flags ts r1 : Nat) (t : List Nat) :
    readBytesAt (pre ++ (mkMetaObj flags ts r1 t ++ post))
        (pre.length + 32 + blf_apptext_size) t.length
      = some t := by
  have hmid := readBytesAt_append_mid pre (mkMetaObj flags ts r1 t) post 48 t.length
    (by rw [mkMetaObj_length])
  rw [show pre.length + 32 + blf_apptext_size = pre.length + 48 by
      simp [blf_apptext_size],
    hmid, mkMetaObj_drop48, List.take_length]

lemma blf_read_apptextmessage_mkMetaObj (epduOf : Nat → List Nat)
    (pre post : List Nat) (flags ts r1 fl tso mc : Nat) (t : List Nat) (buf : WsBuffer)
    (hr1 : r1 < 2 ^ 32) (ht : t.length < 2 ^ 32) :
    blf_read_apptextmessage epduOf (pre ++ (mkMetaObj flags ts r1 t ++ post))
        pre.length (pre.length + 32) (48 + t.length) fl tso mc buf
      = (let buf2 := wsAppend (if mc ≠ 0 then wsSetFirstFree buf mc
                       else wsAppend buf (epduOf BLF_APPTEXT_METADATA)) t
         if r1 &&& 0x00ffffff > t.length then (.contCode, buf2, none)
         else (.metadataCode, buf2,
           some (blf_init_rec fl tso .upperPdu 0 UINT16_MAX
             (wsLength buf2 % U32MOD) (wsLength buf2 % U32MOD)))) := by
  unfold blf_read_apptextmessage
  rw [if_neg (show ¬ (48 + t.length < pre.length + 32 - pre.length + blf_apptext_size) by
      simp only [blf_apptext_size]; omega),
    parseAppTextHeader_mkMetaObj pre post flags ts r1 t hr1 ht]
  dsimp only
  rw [text_mkMetaObj pre post flags ts r1 t]
  dsimp only
  simp only [BLF_APPTEXT_METADATA, BLF_APPTEXT_CHANNEL]
  norm_num

lemma blf_read_block_step_mkMetaObj (other : OtherDecoder) (epduOf : Nat → List Nat)
    (pre post : List Nat) (flags ts r1 : Nat) (t : List Nat)
    (st : BlfState) (buf : WsBuffer) (mc lms : Nat)
    (hflags : flags < 2 ^ 32) (hts : ts < 2 ^ 64) (hr1 : r1 < 2 ^ 32)
    (ht : 48 + t.length < 2 ^ 32) :
    blf_read_block_step other epduOf (pre ++ (mkMetaObj flags ts r1 t ++ post))
        pre.length st buf mc lms
      = (let buf2 := wsAppend (if mc ≠ 0 then wsSetFirstFree (wsReset buf) mc
                       else wsAppend (wsReset buf) (epduOf BLF_APPTEXT_METADATA)) t
         if r1 &&& 0x00ffffff > t.length then
           .next (pre.length + (48 + t.length))
             { start_of_last_obj := pre.length,
               current_real_seek_pos := pre.length + (48 + t.length) }
             buf2 buf2.first_free (if mc = 0 then pre.length else lms)
         else
           .done { ok := true, err := none,
                   st := { start_of_last_obj := if mc ≠ 0 then lms else pre.length,
                           current_real_seek_pos := pre.length + (48 + t.length) },
                   buf := buf2,
                   record := some (blf_init_rec flags ts .upperPdu 0 UINT16_MAX
                     (wsLength buf2 % U32MOD) (wsLength buf2 % U32MOD)) }) := by
  unfold blf_read_block_step
  rw [parseBlockHeader_mkMetaObj pre post flags ts r1 t ht]
  dsimp only
  rw [if_neg (show ¬ LOBJ ≠ LOBJ by simp),
    if_pos (show (1 : Nat) = BLF_HEADER_TYPE_DEFAULT by rfl)]
  dsimp only
  rw [if_neg (show ¬ (32 - blf_blockheader_size < blf_logobjectheader_size) by decide),
    show pre.length + blf_blockheader_size = pre.length + 16 from rfl,
    show blf_logobjectheader_size = 16 from rfl,
    logobj_mkMetaObj pre post flags ts r1 t]
  dsimp only
  rw [if_neg (show ¬ (1 : Nat) = BLF_HEADER_TYPE_3 by decide),
    leVal_take4_logobj flags ts hflags, leVal_drop8_logobj flags ts hts,
    show max (max 16 (48 + t.length)) 32 = 48 + t.length by omega,
    if_neg (show ¬ BLF_OBJTYPE_APP_TEXT = BLF_OBJTYPE_LOG_CONTAINER by decide),
    if_pos (show BLF_OBJTYPE_APP_TEXT = BLF_OBJTYPE_APP_TEXT from rfl)]
  simp only [if_neg (show ¬ (mc ≠ 0 ∧ BLF_OBJTYPE_APP_TEXT ≠ BLF_OBJTYPE_APP_TEXT) by simp)]
  rw [blf_read_apptextmessage_mkMetaObj epduOf pre post flags ts r1 flags ts mc t
    (wsReset buf) hr1 (by omega)]
  dsimp only
  by_cases hgt : r1 &&& 0x00ffffff > t.length
  · rw [if_pos hgt, if_pos hgt]
  · rw [if_neg hgt, if_neg hgt]

/-- Byte image of a run of consecutive APP_TEXT METADATA objects, one
`mkMetaObj` per `(reserved1, text)` pair. -/
def metaSeqBytes (flags ts : Nat) (objs : List (Nat × List Nat)) : List Nat :=
  (objs.map fun p => mkMetaObj flags ts p.1 p.2).flatten

lemma metaSeqBytes_cons (flags ts : Nat) (c : Nat × List Nat)
    (objs : List (Nat × List Nat)) :
    metaSeqBytes flags ts (c :: objs)
      = mkMetaObj flags ts c.1 c.2 ++ metaSeqBytes flags ts objs := by
  simp [metaSeqBytes]

lemma metaSeqBytes_single (flags ts r1 : Nat) (t : List Nat) :
    metaSeqBytes flags ts [(r1, t)] = mkMetaObj flags ts r1 t := by
  simp [metaSeqBytes]

lemma blf_read_block_metaSeq (other : OtherDecoder) (epduOf : Nat → List Nat)
    (flags ts lastR1 : Nat) (lastT : List Nat)
    (hflags : flags < 2 ^ 32) (hts : ts < 2 ^ 64)
    (hepdu : epduOf BLF_APPTEXT_METADATA ≠ [])
    (hlr1 : lastR1 < 2 ^ 32) (hlt : 48 + lastT.length < 2 ^ 32)
    (hterm : ¬ lastR1 &&& 0x00ffffff > lastT.length) :
    ∀ (conts : List (Nat × List Nat)) (pre post : List Nat) (fuel : Nat)
      (mc lms : Nat) (st : BlfState) (buf : WsBuffer),
      conts.length + 1 ≤ fuel →
      (∀ p ∈ conts, p.1 < 2 ^ 32 ∧ 48 + p.2.length < 2 ^ 32 ∧
        p.1 &&& 0x00ffffff > p.2.length) →
      (mc ≠ 0 → mc ≤ buf.store.length) →
      (let out := blf_read_block other epduOf
          (pre ++ (metaSeqBytes flags ts (conts ++ [(lastR1, lastT)]) ++ post))
          fuel pre.length st buf mc lms
       let c0 := if mc = 0 then epduOf BLF_APPTEXT_METADATA else buf.store.take mc
       let L := c0.length + (((conts.map fun p => p.2.length).sum) + lastT.length)
       out.ok = true ∧ out.err = none ∧
       out.st.start_of_last_obj = (if mc ≠ 0 then lms else pre.length) ∧
       out.st.current_real_seek_pos
         = pre.length + (metaSeqBytes flags ts (conts ++ [(lastR1, lastT)])).length ∧
       out.record = some (blf_init_rec flags ts .upperPdu 0 UINT16_MAX
         (L % U32MOD) (L % U32MOD)) ∧
       wsContent out.buf = c0 ++ (((conts.map Prod.snd).flatten) ++ lastT) ∧
       wsLength out.buf = L) := by
  intro conts
  induction conts with
  | nil =>
    intro pre post fuel mc lms st buf hfuel hconts hbuf
    obtain ⟨f, rfl⟩ : ∃ f, fuel = f + 1 := ⟨fuel - 1, by omega⟩
    dsimp only
    simp only [List.nil_append, metaSeqBytes_single, List.map_nil, List.sum_nil,
      List.flatten_nil, Nat.zero_add]
    simp only [blf_read_block]
    rw [blf_read_block_step_mkMetaObj other epduOf pre post flags ts lastR1 lastT
      st buf mc lms hflags hts hlr1 hlt]
    dsimp only
    rw [if_neg hterm]
    dsimp only
    have hbl : wsLength (wsAppend (if mc ≠ 0 then wsSetFirstFree (wsReset buf) mc
        else wsAppend (wsReset buf) (epduOf BLF_APPTEXT_METADATA)) lastT)
        = (if mc = 0 then epduOf BLF_APPTEXT_METADATA
            else buf.store.take mc).length + lastT.length := by
      by_cases hmc : mc = 0
      · simp [hmc, wsLength, wsAppend, wsSetFirstFree, wsReset]
      · have hmle := hbuf hmc
        simp [hmc, wsLength, wsAppend, wsSetFirstFree, wsReset, List.length_take]
        omega
    have hbc : wsContent (wsAppend (if mc ≠ 0 then wsSetFirstFree (wsReset buf) mc
        else wsAppend (wsReset buf) (epduOf BLF_APPTEXT_METADATA)) lastT)
        = (if mc = 0 then epduOf BLF_APPTEXT_METADATA
            else buf.store.take mc) ++ lastT := by
      rw [wsContent_wsAppend]
      by_cases hmc : mc = 0
      · rw [if_neg (by simp [hmc]), if_pos hmc, wsContent_wsAppend]
        simp [wsContent, wsReset]
      · rw [if_pos hmc, if_neg hmc]
        simp [wsContent, wsSetFirstFree, wsReset]
    refine ⟨rfl, rfl, rfl, ?_, ?_, ?_, ?_⟩
    · rw [mkMetaObj_length]
    · rw [hbl]
    · rw [hbc]
    · rw [hbl]
  | cons c rest ih =>
    intro pre post fuel mc lms st buf hfuel hconts hbuf
    obtain ⟨f, rfl⟩ : ∃ f, fuel = f + 1 := ⟨fuel - 1, by omega⟩
    obtain ⟨hc1, hc2, hc3⟩ := hconts c (List.mem_cons_self c rest)
    dsimp only
    rw [List.cons_append, metaSeqBytes_cons, List.append_assoc]
    simp only [blf_read_block]
    rw [blf_read_block_step_mkMetaObj other epduOf pre
      (metaSeqBytes flags ts (rest ++ [(lastR1, lastT)]) ++ post) flags ts c.1 c.2
      st buf mc lms hflags hts hc1 hc2]
    dsimp only
    rw [if_pos hc3]
    dsimp only
    set buf1 : WsBuffer := if mc ≠ 0 then wsSetFirstFree (wsReset buf) mc
      else wsAppend (wsReset buf) (epduOf BLF_APPTEXT_METADATA) with hbuf1
    have hff1 : buf1.first_free
        = (if mc = 0 then (epduOf BLF_APPTEXT_METADATA).length else mc) := by
      rw [hbuf1]
      by_cases hmc : mc = 0
      · simp [hmc, wsAppend, wsReset]
      · simp [hmc, wsSetFirstFree, wsReset]
    have hff1pos : 0 < buf1.first_free := by
      rw [hff1]
      by_cases hmc : mc = 0
      · rw [if_pos hmc]
        exact List.length_pos.mpr hepdu
      · rw [if_neg hmc]
        omega
    have hffne : (wsAppend buf1 c.2).first_free ≠ 0 := by
      rw [wsAppend_first_free]
      omega
    have hssle : (wsAppend buf1 c.2).first_free ≤ (wsAppend buf1 c.2).store.length := by
      apply wsAppend_store_le
      rw [hbuf1]
      by_cases hmc : mc = 0
      · rw [if_neg (by simp [hmc])]
        apply wsAppend_store_le
        simp [wsReset]
      · have hmle := hbuf hmc
        rw [if_pos hmc]
        simp [wsSetFirstFree, wsReset]
        omega
    have hcb1 : wsContent buf1
        = (if mc = 0 then epduOf BLF_APPTEXT_METADATA else buf.store.take mc) := by
      rw [hbuf1]
      by_cases hmc : mc = 0
      · rw [if_neg (by simp [hmc]), if_pos hmc, wsContent_wsAppend]
        simp [wsContent, wsReset]
      · rw [if_pos hmc, if_neg hmc]
        simp [wsContent, wsSetFirstFree, wsReset]
    have hc0eq : (wsAppend buf1 c.2).store.take (wsAppend buf1 c.2).first_free
        = (if mc = 0 then epduOf BLF_APPTEXT_METADATA else buf.store.take mc) ++ c.2 := by
      rw [show (wsAppend buf1 c.2).store.take (wsAppend buf1 c.2).first_free
          = wsContent (wsAppend buf1 c.2) from rfl,
        wsContent_wsAppend, hcb1]
    have hplen : (pre ++ mkMetaObj flags ts c.1 c.2).length
        = pre.length + (48 + c.2.length) := by
      simp [mkMetaObj_length]
    rw [show pre.length + (48 + c.2.length) = (pre ++ mkMetaObj flags ts c.1 c.2).length
        from hplen.symm,
      show pre ++ (mkMetaObj flags ts c.1 c.2
            ++ (metaSeqBytes flags ts (rest ++ [(lastR1, lastT)]) ++ post))
          = (pre ++ mkMetaObj flags ts c.1 c.2)
            ++ (metaSeqBytes flags ts (rest ++ [(lastR1, lastT)]) ++ post)
        from (List.append_assoc _ _ _).symm]
    have H := ih (pre ++ mkMetaObj flags ts c.1 c.2) post f
      (wsAppend buf1 c.2).first_free (if mc = 0 then pre.length else lms)
      { start_of_last_obj := pre.length,
        current_real_seek_pos := (pre ++ mkMetaObj flags ts c.1 c.2).length }
      (wsAppend buf1 c.2)
      (by simp only [List.length_cons] at hfuel; omega)
      (fun p hp => hconts p (List.mem_cons_of_mem c hp))
      (fun _ => hssle)
    dsimp only at H
    rw [if_neg hffne, hc0eq] at H
    obtain ⟨Hok, Herr, Hstart, Hcur, Hrec, Hcont, Hlen⟩ := H
    rw [if_pos hffne] at Hstart
    refine ⟨Hok, Herr, ?_, ?_, ?_, ?_, ?_⟩
    · rw [Hstart]
      by_cases hmc : mc = 0 <;> simp [hmc]
    · rw [Hcur, hplen]
      simp [metaSeqBytes_cons, List.length_append, mkMetaObj_length]
      omega
    · rw [Hrec]
      have hLeq : ((if mc = 0 then epduOf BLF_APPTEXT_METADATA
              else buf.store.take mc) ++ c.2).length
            + (((rest.map fun p => p.2.length).sum) + lastT.length)
          = (if mc = 0 then epduOf BLF_APPTEXT_METADATA
              else buf.store.take mc).length
            + ((((c :: rest).map fun p => p.2.length).sum) + lastT.length) := by
        simp [List.length_append]
        omega
      rw [hLeq]
    · rw [Hcont]
      simp [List.append_assoc]
    · rw [Hlen]
      simp [List.length_append]
      omega

/-- Trivial oracle for the C2 run (the sequence contains no object the
oracle would be consulted for). -/
def c2Other : OtherDecoder := fun _ _ _ _ b => (false, none, b, none)

/-- A nonempty exported-PDU wrapper stand-in for the C2 run. -/
def c2Epdu : Nat → List Nat := fun _ => [9]

/-- C2: for consecutive APP_TEXT objects with source METADATA,
`blf_read_apptextmessage` continues the sequence (no record) exactly when
`(reserved1 & 0x00FFFFFF) > textLength`, buffering the text; and when the
sequence terminates, the `blf_read_block` loop emits exactly one record
with upper-PDU encapsulation whose capture and wire lengths are the total
buffered byte count (exported-PDU wrapper plus every buffered text), with
`start_of_last_obj` left at the virtual offset of the first object of the
sequence. -/
theorem blf_metadata_sequence (other : OtherDecoder) (epduOf : Nat → List Nat)
    (pre post : List Nat) (flags ts lastR1 : Nat) (lastT : List Nat)
    (conts : List (Nat × List Nat)) (fuel : Nat) (st : BlfState) (buf : WsBuffer)
    (hepdu : epduOf BLF_APPTEXT_METADATA ≠ [])
    (hflags : flags < 2 ^ 32) (hts : ts < 2 ^ 64)
    (hconts : ∀ p ∈ conts, p.1 < 2 ^ 32 ∧ 48 + p.2.length < 2 ^ 32 ∧
      p.1 &&& 0x00ffffff > p.2.length)
    (hlr1 : lastR1 < 2 ^ 32) (hlt : 48 + lastT.length < 2 ^ 32)
    (hterm : ¬ lastR1 &&& 0x00ffffff > lastT.length)
    (hfuel : conts.length + 1 ≤ fuel) :
    (∀ (r1 mc : Nat) (t : List Nat) (b : WsBuffer),
      r1 < 2 ^ 32 → t.length < 2 ^ 32 →
      (((blf_read_apptextmessage epduOf (pre ++ (mkMetaObj flags ts r1 t ++ post))
            pre.length (pre.length + 32) (48 + t.length) flags ts mc b).1
          = AppTextCode.contCode)
        ↔ r1 &&& 0x00ffffff > t.length) ∧
      (r1 &&& 0x00ffffff > t.length →
        (blf_read_apptextmessage epduOf (pre ++ (mkMetaObj flags ts r1 t ++ post))
            pre.length (pre.length + 32) (48 + t.length) flags ts mc b).2.2
          = none)) ∧
    (let out := blf_read_block other epduOf
        (pre ++ (metaSeqBytes flags ts (conts ++ [(lastR1, lastT)]) ++ post))
        fuel pre.length st buf 0 0
     let L := (epduOf BLF_APPTEXT_METADATA).length
       + (((conts.map fun p => p.2.length).sum) + lastT.length)
     out.ok = true ∧ out.err = none ∧
     out.record = some (blf_init_rec flags ts .upperPdu 0 UINT16_MAX
       (L % U32MOD) (L % U32MOD)) ∧
     wsContent out.buf
       = epduOf BLF_APPTEXT_METADATA ++ (((conts.map Prod.snd).flatten) ++ lastT) ∧
     wsLength out.buf = L ∧
     out.st.start_of_last_obj = pre.length ∧
     out.st.current_real_seek_pos
       = pre.length + (metaSeqBytes flags ts (conts ++ [(lastR1, lastT)])).length) := by
  constructor
  · intro r1 mc t b hr1 ht
    rw [blf_read_apptextmessage_mkMetaObj epduOf pre post flags ts r1 flags ts mc t
      b hr1 ht]
    dsimp only
    constructor
    · by_cases hgt : r1 &&& 0x00ffffff > t.length
      · rw [if_pos hgt]
        simp [hgt]
      · rw [if_neg hgt]
        simp [hgt]
    · intro hgt
      rw [if_pos hgt]
  · have H := blf_read_block_metaSeq other epduOf flags ts lastR1 lastT hflags hts
      hepdu hlr1 hlt hterm conts pre post fuel 0 0 st buf hfuel hconts
      (fun h => absurd rfl h)
    dsimp only at H ⊢
    rw [if_pos rfl, if_neg (show ¬ (0 : Nat) ≠ 0 by omega)] at H
    obtain ⟨Hok, Herr, Hstart, Hcur, Hrec, Hcont, Hlen⟩ := H
    exact ⟨Hok, Herr, Hrec, Hcont, Hlen, Hstart, Hcur⟩

theorem blf_metadata_sequence_witness :
    (16 &&& 0x00ffffff > 5) ∧ ¬ (0 &&& 0x00ffffff > 6) ∧
    c2Epdu BLF_APPTEXT_METADATA ≠ [] ∧
    (blf_read_block c2Other c2Epdu
        ([] ++ (metaSeqBytes 2 7 ([(16, [72, 69, 76, 76, 79])]
          ++ [(0, [87, 79, 82, 76, 68, 33])]) ++ []))
        2 0 { start_of_last_obj := 0, current_real_seek_pos := 0 }
        { store := [], first_free := 0 } 0 0).ok = true ∧
    (blf_read_block c2Other c2Epdu
        ([] ++ (metaSeqBytes 2 7 ([(16, [72, 69, 76, 76, 79])]
          ++ [(0, [87, 79, 82, 76, 68, 33])]) ++ []))
        2 0 { start_of_last_obj := 0, current_real_seek_pos := 0 }
        { store := [], first_free := 0 } 0 0).record
      = some (blf_init_rec 2 7 .upperPdu 0 UINT16_MAX 12 12) ∧
    wsContent (blf_read_block c2Other c2Epdu
        ([] ++ (metaSeqBytes 2 7 ([(16, [72, 69, 76, 76, 79])]
          ++ [(0, [87, 79, 82, 76, 68, 33])]) ++ []))
        2 0 { start_of_last_obj := 0, current_real_seek_pos := 0 }
        { store := [], first_free := 0 } 0 0).buf
      = [9, 72, 69, 76, 76, 79, 87, 79, 82, 76, 68, 33] ∧
    wsLength (blf_read_block c2Other c2Epdu
        ([] ++ (metaSeqBytes 2 7 ([(16, [72, 69, 76, 76, 79])]
          ++ [(0, [87, 79, 82, 76, 68, 33])]) ++ []))
        2 0 { start_of_last_obj := 0, current_real_seek_pos := 0 }
        { store := [], first_free := 0 } 0 0).buf = 12 ∧
    (blf_read_block c2Other c2Epdu
        ([] ++ (metaSeqBytes 2 7 ([(16, [72, 69, 76, 76, 79])]
          ++ [(0, [87, 79, 82, 76, 68, 33])]) ++ []))
        2 0 { start_of_last_obj := 0, current_real_seek_pos := 0 }
        { store := [], first_free := 0 } 0 0).st.start_of_last_obj = 0 ∧
    (blf_read_block c2Other c2Epdu
        ([] ++ (metaSeqBytes 2 7 ([(16, [72, 69, 76, 76, 79])]
          ++ [(0, [87, 79, 82, 76, 68, 33])]) ++ []))
        2 0 { start_of_last_obj := 0, current_real_seek_pos := 0 }
        { store := [], first_free := 0 } 0 0).st.current_real_seek_pos = 107 := by
  have H := blf_metadata_sequence c2Other c2Epdu [] [] 2 7 0
      [87, 79, 82, 76, 68, 33] [(16, [72, 69, 76, 76, 79])] 2
      { start_of_last_obj := 0, current_real_seek_pos := 0 }
      { store := [], first_free := 0 }
      (by decide) (by decide) (by decide) (by decide) (by decide) (by decide)
      (by decide) (by decide)
  obtain ⟨-, Hb⟩ := H
  dsimp only at Hb
  obtain ⟨Hok, Herr, Hrec, Hcont, Hlen, Hstart, Hcur⟩ := Hb
  exact ⟨by decide, by decide, by decide, Hok, Hrec, Hcont, Hlen, Hstart, Hcur⟩

end Blf
